import Mathlib

/-!
Verification development for `tools/stack_health.py`, a sequential
cluster health-check script.  The script is shallowly embedded here:

* JSON values (as produced by Python's `json.loads`) are the inductive
  type `Json`; Python `dict.get`, subscripting, truthiness, iteration
  and `int()` conversion are modelled by total Lean functions returning
  `Except String _` exactly where the Python operation can raise.
* The external world (filesystem, subprocesses, HTTP, DNS) is an
  oracle record `Env`; the script only observes it through the same
  calls the Python code makes.
* Printing is modelled as an accumulated list of `Line` values; ANSI
  colour codes and icons are presentation-only and are not modelled,
  a `Line` records the kind of line (ok / fail / warn / info / raw)
  and the message text.  Shell quoting of the `KUBECONFIG=...` prefix
  is likewise elided from the modelled command strings.
* Exceptions are modelled by `Except` / `SRes`; a Python
  `try ... except` block becomes a `match` on the fallible body.
-/

/-- JSON values as decoded by `json.loads`.  Numbers are modelled as
integers (no claim depends on float payloads); objects are key/value
lists, looked up with last-occurrence-wins to match Python dict
construction. -/
inductive Json where
  | null : Json
  | bool (b : Bool) : Json
  | num (n : Int) : Json
  | str (s : String) : Json
  | arr (xs : List Json) : Json
  | obj (kvs : List (String × Json)) : Json

/-- Lookup in a modelled Python dict: the last binding of a key wins
(matching `json.loads`, where later duplicate keys override earlier
ones). -/
def lookupLast (kvs : List (String × Json)) (k : String) : Option Json :=
  (kvs.reverse.find? (fun p => p.1 == k)).map (fun p => p.2)

/-- Python truthiness of a decoded JSON value (`bool(x)`). -/
def pyTruthy : Json → Bool
  | .null => false
  | .bool b => b
  | .num n => n != 0
  | .str s => s != ""
  | .arr xs => !xs.isEmpty
  | .obj kvs => !kvs.isEmpty

/-- Python `x == "lit"` for a decoded value `x` and a string literal:
true exactly when `x` is that string.  (Comparing a non-string value
to a string is `False` in Python, it does not raise.) -/
def jEqStr (j : Json) (s : String) : Bool :=
  match j with
  | .str t => t == s
  | _ => false

/-- Boolean infix test on character lists (kernel-reducible). -/
def infixOfB (pat : List Char) : List Char → Bool
  | [] => pat.isPrefixOf []
  | c :: rest => pat.isPrefixOf (c :: rest) || infixOfB pat rest

/-- Python substring test `pat in s`. -/
def strContains (s pat : String) : Bool :=
  infixOfB pat.data s.data

/-- Python `s.startswith(pat)`. -/
def strStarts (s pat : String) : Bool :=
  pat.data.isPrefixOf s.data

/-- Python `s.strip()` (model of the `.strip()` calls in `sh`; uses the
same whitespace class for both ends). -/
def pyStrip (s : String) : String :=
  String.mk (((s.data.dropWhile Char.isWhitespace).reverse.dropWhile Char.isWhitespace).reverse)

/-- Python `s.lower()` (ASCII case folding suffices for the `"ok"`
readiness test). -/
def pyLower (s : String) : String :=
  String.mk (s.data.map Char.toLower)

/-- Prefix of a string, `n` characters (models the 2000-byte peek
`resp.read(2000)`; the byte/char distinction is not claim-relevant). -/
def pyTake (s : String) (n : Nat) : String :=
  String.mk (s.data.take n)

/-- Python `str.splitlines()` restricted to `'\n'` separators (the kubeconfig
files the script reads are newline-separated YAML). -/
def splitLinesAux (acc : List Char) : List Char → List String
  | [] => [String.mk acc.reverse]
  | c :: rest =>
    if c == '\n' then String.mk acc.reverse :: splitLinesAux [] rest
    else splitLinesAux (c :: acc) rest

/-- All lines of a string. -/
def splitLines (s : String) : List String :=
  splitLinesAux [] s.data

/-- Decimal digits to a number, `none` on a non-digit. -/
def digitsToNat (acc : Nat) : List Char → Option Nat
  | [] => some acc
  | c :: rest =>
    if c.isDigit then digitsToNat (acc * 10 + (c.toNat - 48)) rest
    else none

/-- Python `int(s)` on a stripped string: optional sign, then decimal
digits. -/
def pyStrToInt (s : String) : Option Int :=
  match s.data with
  | [] => none
  | '-' :: rest =>
    match rest with
    | [] => none
    | _ => (digitsToNat 0 rest).map (fun n => -(n : Int))
  | '+' :: rest =>
    match rest with
    | [] => none
    | _ => (digitsToNat 0 rest).map (fun n => (n : Int))
  | l => (digitsToNat 0 l).map (fun n => (n : Int))

/-- Python `d.get(k, default)`: raises `AttributeError` when `d` is not
a dict. -/
def pyGetD (j : Json) (k : String) (d : Json) : Except String Json :=
  match j with
  | .obj kvs => .ok ((lookupLast kvs k).getD d)
  | _ => .error "AttributeError: get"

/-- Python `d.get(k)` (default `None`). -/
def pyGet (j : Json) (k : String) : Except String Json :=
  pyGetD j k .null

/-- Python subscripting `d[k]` with a string key: `KeyError` when the
key is absent, `TypeError` when the value is not a dict. -/
def pySub (j : Json) (k : String) : Except String Json :=
  match j with
  | .obj kvs =>
    match lookupLast kvs k with
    | some v => .ok v
    | none => .error ("KeyError: " ++ k)
  | _ => .error "TypeError: not subscriptable"

/-- Python iteration `for x in j`: lists yield their elements, dicts
their keys, strings their characters; other values raise `TypeError`. -/
def jIter : Json → Except String (List Json)
  | .arr xs => .ok xs
  | .obj kvs => .ok (kvs.map (fun p => .str p.1))
  | .str s => .ok (s.data.map (fun c => .str (String.mk [c])))
  | _ => .error "TypeError: not iterable"

/-- Python `j[0]`: first element of a list or string; other values
raise. -/
def pyIndex0 : Json → Except String Json
  | .arr (x :: _) => .ok x
  | .arr [] => .error "IndexError"
  | .str s =>
    match s.data with
    | c :: _ => .ok (.str (String.mk [c]))
    | [] => .error "IndexError"
  | _ => .error "TypeError: not indexable"

/-- Python `str` methods (`.startswith`, `in`) require the receiver to
be a string; anything else raises. -/
def asPyStr : Json → Except String String
  | .str s => .ok s
  | _ => .error "AttributeError: not a str"

/-- Python `int(x)` on a decoded JSON value. -/
def pyInt : Json → Except String Int
  | .num n => .ok n
  | .bool b => .ok (if b then 1 else 0)
  | .str s =>
    match pyStrToInt (pyStrip s) with
    | some n => .ok n
    | none => .error ("ValueError: " ++ s)
  | _ => .error "TypeError: int()"

/-- Python `str(x)` as used in f-strings for message rendering.
Container rendering is abbreviated; no claim depends on it. -/
def pyStr : Json → String
  | .null => "None"
  | .bool true => "True"
  | .bool false => "False"
  | .num n => toString n
  | .str s => s
  | .arr _ => "[...]"
  | .obj _ => "\x7b...\x7d"


/-- Outcome of spawning a child process: it either completes with an
exit code and captured output, or it exceeds the timeout. -/
inductive ShOutcome where
  | completed (rc : Int) (out err : String) : ShOutcome
  | timedOut : ShOutcome

/-- Result of `sh`: exit code, trimmed stdout, trimmed stderr, plus a
flag recording whether the child was killed (`p.kill()` on timeout). -/
structure ShRes where
  rc : Int
  out : String
  err : String
  killed : Bool
deriving DecidableEq, Repr

/-- The `sh(cmd, timeout)` helper of the script: run a shell command and return
`(rc, stdout.strip(), stderr.strip())`; on `TimeoutExpired` kill the
child and return `(124, "", "timeout after {timeout}s")`. -/
def sh (o : ShOutcome) (timeoutS : Nat) : ShRes :=
  match o with
  | .completed rc out err => ⟨rc, pyStrip out, pyStrip err, false⟩
  | .timedOut => ⟨124, "", "timeout after " ++ toString timeoutS ++ "s", true⟩

/-- Outcome of one HTTP(S) connect/request/read against the oracle:
either a response (status, reason, body) or an exception with a
message. -/
inductive ProbeOutcome where
  | response (status : Nat) (reason : String) (body : String) : ProbeOutcome
  | exn (msg : String) : ProbeOutcome

/-- Result of `http_probe`: `(okish, status, reason, body)`. -/
structure ProbeRes where
  alive : Bool
  status : Nat
  reason : String
  body : String
deriving DecidableEq, Repr

/-- The `http_probe` helper of the script: classify a response as reachable when
`100 <= status < 500` (the body is read with a 2000-byte peek); any
exception during connect/request/read is caught and reported as
`(False, 0, str(e), "")`. -/
def http_probe (o : ProbeOutcome) : ProbeRes :=
  match o with
  | .response st rs body => ⟨decide (100 ≤ st) && decide (st < 500), st, rs, pyTake body 2000⟩
  | .exn m => ⟨false, 0, m, ""⟩

/-- One container status entry check inside `pod_ready`'s
`all(c.get("ready") for c in cs)`: in Python a non-dict entry raises
(`AttributeError`), which the surrounding `try` turns into `False`;
extensionally that is the same as treating the entry as not ready,
since `all` with any falsy element already yields `False` for the
whole pod. -/
def containerReadyTruthy : Json → Bool
  | .obj ckvs => pyTruthy ((lookupLast ckvs "ready").getD .null)
  | _ => false

/-- The `pod_ready(pod)` predicate of the script:

```
try:
    if pod.get("status", {}).get("phase") != "Running": return False
    cs = pod.get("status", {}).get("containerStatuses") or []
    return all(c.get("ready") for c in cs) and len(cs) > 0
except Exception:
    return False
```

Every raising path (non-dict pod, non-dict status, iteration over a
truthy non-list `containerStatuses`, non-dict entries) falls into the
`except` and yields `false`. -/
def pod_ready (pod : Json) : Bool :=
  match pod with
  | .obj kvs =>
    match (lookupLast kvs "status").getD (.obj []) with
    | .obj skvs =>
      if jEqStr ((lookupLast skvs "phase").getD .null) "Running" then
        let cs0 := (lookupLast skvs "containerStatuses").getD .null
        let cs := if pyTruthy cs0 then cs0 else .arr []
        match cs with
        | .arr xs => xs.all containerReadyTruthy && decide (0 < xs.length)
        | _ => false
      else false
    | _ => false
  | _ => false

/-- One printed line: the helpers `ok` / `fail` / `warn` / `info` of the
script, plus `raw` for bare `print(...)` calls.  Colour codes and icons
are presentation only and are not modelled. -/
inductive Line where
  | ok (msg : String) : Line
  | fail (msg : String) : Line
  | warn (msg : String) : Line
  | info (msg : String) : Line
  | raw (msg : String) : Line
deriving DecidableEq, Repr

/-- The mutable run state of `main`: the three tally counters and the
transcript of printed lines.  The counters are `Nat` because the
script initializes them to `0` and only ever adds `1`. -/
structure St where
  passed : Nat
  warned : Nat
  failed : Nat
  lines : List Line
deriving DecidableEq, Repr

/-- The state at the top of `main`: `passed = failed = warned = 0`,
nothing printed yet. -/
def initSt : St := ⟨0, 0, 0, []⟩

/-- Result of running a piece of `main`: either it finished in state
`s`, or a Python exception `e` escaped while the state was `s`
(everything printed before the raise stays printed). -/
inductive SRes where
  | ok (s : St) : SRes
  | err (e : String) (s : St) : SRes
deriving DecidableEq, Repr

/-- The state carried by an `SRes`. -/
def SRes.st : SRes → St
  | .ok s => s
  | .err _ s => s

/-- Sequencing: an uncaught exception skips everything after it. -/
def SRes.seq : SRes → (St → SRes) → SRes
  | .ok s, f => f s
  | .err e s, _ => .err e s

/-- Append one printed line. -/
def emit (l : Line) (s : St) : St :=
  { s with lines := s.lines ++ [l] }

/-- Increment `passed` by one. -/
def incP (s : St) : St := { s with passed := s.passed + 1 }

/-- Increment `warned` by one. -/
def incW (s : St) : St := { s with warned := s.warned + 1 }

/-- Increment `failed` by one. -/
def incF (s : St) : St := { s with failed := s.failed + 1 }

/-- Print `ok(msg)` followed by `passed += 1` (the dominant pattern in the
check sections). -/
def okC (m : String) (s : St) : St := incP (emit (.ok m) s)

/-- Print `warn(msg)` followed by `warned += 1`. -/
def warnC (m : String) (s : St) : St := incW (emit (.warn m) s)

/-- Print `fail(msg)` followed by `failed += 1`. -/
def failC (m : String) (s : St) : St := incF (emit (.fail m) s)

/-- The external world as the script observes it: filesystem (does the
kubeconfig path name a file, and the outcome of `open(...)` / `f.read()`
on it — `.ok` is the content, `.error` a raised `OSError` such as
`PermissionError` on an existing-but-unreadable file), subprocess
results per command line, the JSON decoder applied to captured stdout,
the HTTP(S) stack per (scheme, host), and DNS resolution per hostname.
The JSON decoder is the `json.loads` oracle: `.error` models a
`JSONDecodeError`. -/
structure Env where
  isfile : Bool
  readKubeconfig : Except String String
  shO : String → ShOutcome
  parse : String → Except String Json
  probeO : String → String → ProbeOutcome
  dns : String → Except String String

/-- The resolved command-line configuration of `main`. -/
structure Args where
  kubeconfig : String
  ip : String
  argocd : String
  grafana : String
  whoami : String
  https : Bool

/-- The parser defaults of the script. -/
def defaultArgs : Args :=
  ⟨"/etc/rancher/k3s/k3s.yaml", "192.168.2.60", "argocd.pizza", "grafana.pizza", "whoami.pizza", false⟩

/-- The `KUBECONFIG='...'` prefix every command line carries (shell
quoting elided). -/
def withKc (kc cmd : String) : String :=
  "KUBECONFIG=" ++ (kc ++ (" " ++ cmd))

/-- The `kubectl_json(args, kubeconfig)` helper of the script: run
`kubectl {args} -o json` with a 40s timeout; on a non-zero exit code
raise `RuntimeError(f"kubectl {args} failed: {err or out}")`, otherwise
decode the captured stdout as JSON. -/
def kubectl_json (env : Env) (args kc : String) : Except String Json :=
  let r := sh (env.shO (withKc kc ("kubectl " ++ (args ++ " -o json")))) 40
  if r.rc != 0 then
    .error ("kubectl " ++ (args ++ (" failed: " ++ (if r.err == "" then r.out else r.err))))
  else env.parse r.out

/-- Section headers printed through `info(...)`. -/
def hdrKube : String := "=== Kubeconfig & API ==="

/-- Node health header. -/
def hdrNode : String := "=== Node health ==="

/-- Core pods header. -/
def hdrCore : String := "=== Core kube-system pods ==="

/-- Namespaces header. -/
def hdrNs : String := "=== Namespaces present ==="

/-- Argo CD header. -/
def hdrArgo : String := "=== Argo CD ==="

/-- Monitoring header. -/
def hdrMon : String := "=== Grafana / Prometheus (kube-prometheus-stack) ==="

/-- Loki / Promtail header. -/
def hdrLoki : String := "=== Loki / Promtail ==="

/-- Demo app header. -/
def hdrWhoami : String := "=== Demo app: whoami ==="

/-- DNS hints header. -/
def hdrDns : String := "=== Optional DNS hints ==="

/-- First line of the kubeconfig containing `"server: "`, else `""`
(the `next((l for l in cfg.splitlines() if "server: " in l), "")`
expression). -/
def serverLineOf (cfg : String) : String :=
  ((splitLines cfg).filter (fun l => strContains l "server: ")).headD ""

/-- The remediation hint printed when the kubeconfig is missing
(`sudo sed -i 's#https://127\.0\.0\.1:6443#https://{ip}:6443#' {kc}`). -/
def sedHint (ip kc : String) : String :=
  "  sudo sed -i \x27s#https://127\\.0\\.0\\.1:6443#https://" ++ (ip ++ (":6443#\x27 " ++ kc))

/-- The kubeconfig sub-check of the first section (lines 106-122 of the
script): file present -> informational `ok` line (no counter), then the
file is read with `open(...)` / `f.read()` — the one operation of `main`
outside any `try/except`, so a raising read (`.err`) escapes the whole
run; on a successful read, either a loopback warning (`warned += 1`) or
an informational server line (no counter); file missing -> `failed += 1`
plus the remediation hint, and the run continues. -/
def kubeconfigCheck (env : Env) (a : Args) (s : St) : SRes :=
  if env.isfile then
    let s := emit (.ok ("kubeconfig found at " ++ a.kubeconfig)) s
    match env.readKubeconfig with
    | .error e => .err e s
    | .ok cfg =>
      let sl := serverLineOf cfg
      if strContains sl "127.0.0.1:6443" then
        .ok (incW (emit (.warn "kubeconfig still points to https://127.0.0.1:6443 (will still try using it)") s))
      else
        .ok (emit (.ok ("kubeconfig server: " ++ (if pyStrip sl == "" then "<unknown>" else pyStrip sl))) s)
  else
    let s := failC ("kubeconfig missing: " ++ a.kubeconfig) s
    let s := emit (.raw "") s
    let s := emit (.raw "Please run:") s
    let s := emit (.raw (sedHint a.ip a.kubeconfig)) s
    .ok (emit (.raw "") s)

/-- The `/readyz` sub-check.  The surrounding `try` in the script can
only catch failures of `sh` itself, which the model renders total, so
the handler is unreachable here. -/
def readyzCheck (env : Env) (a : Args) (s : St) : St :=
  let r := sh (env.shO (withKc a.kubeconfig "kubectl get --raw=/readyz 2>/dev/null")) 20
  if r.rc == 0 && strContains (pyLower r.out) "ok" then
    okC "API /readyz: OK" s
  else
    failC ("API /readyz: not ready (" ++ ((if r.err == "" then r.out else r.err) ++ ")")) s

/-- Section 1: kubeconfig & API.  An exception from the kubeconfig read
propagates (there is no handler anywhere above it); otherwise the
`/readyz` sub-check follows. -/
def secKubeApi (env : Env) (a : Args) (s : St) : SRes :=
  match kubeconfigCheck env a (emit (.info hdrKube) (emit (.raw "") s)) with
  | .ok t => .ok (readyzCheck env a t)
  | .err e t => .err e t

/-- What the node-health section computes before printing anything:
either the item list was empty, or the name, the Ready condition and
the InternalIP equality of the first node. -/
inductive NodeOutcome where
  | noNodes : NodeOutcome
  | node (name : String) (ready : Bool) (ipStr : String) (ipMatch : Bool) : NodeOutcome

/-- The `addresses = {a["type"]: a["address"] for a in ...}` dict
comprehension; list/dict keys would be unhashable and raise. -/
def addrPairs : List Json → Except String (List (Json × Json))
  | [] => .ok []
  | a :: rest => do
    let t ← pySub a "type"
    let ad ← pySub a "address"
    match t with
    | .arr _ => .error "TypeError: unhashable type"
    | .obj _ => .error "TypeError: unhashable type"
    | _ => (addrPairs rest).map (fun l => (t, ad) :: l)

/-- Lookup `addresses.get("InternalIP", ...)`: last binding wins, as in a dict
built left to right. -/
def addrLookup (l : List (Json × Json)) : Option Json :=
  (l.reverse.find? (fun p => jEqStr p.1 "InternalIP")).map (fun p => p.2)

/-- The `for cond in conditions: if cond.get("type") == "Ready": ready =
cond.get("status") == "True"` loop (the last matching condition wins). -/
def readyFold : List Json → Bool → Except String Bool
  | [], r => .ok r
  | c :: rest, r => do
    let t ← pyGet c "type"
    let r' ← if jEqStr t "Ready" then do
        let st ← pyGet c "status"
        pure (jEqStr st "True")
      else pure r
    readyFold rest r'

/-- All fallible work of the node-health section; in the script every
raising operation happens before the first line of the section is
printed. -/
def nodeFacts (env : Env) (a : Args) : Except String NodeOutcome := do
  let nj ← kubectl_json env "get nodes" a.kubeconfig
  let items ← pyGetD nj "items" (.arr [])
  if pyTruthy items then do
    let node ← pyIndex0 items
    let md ← pySub node "metadata"
    let nm ← pySub md "name"
    let statusJ ← pySub node "status"
    let addrsJ ← pySub statusJ "addresses"
    let addrItems ← jIter addrsJ
    let pairs ← addrPairs addrItems
    let internalIp := (addrLookup pairs).getD (.str "<missing>")
    let st2 ← pyGetD node "status" (.obj [])
    let condsJ ← pyGetD st2 "conditions" (.arr [])
    let conds ← jIter condsJ
    let ready ← readyFold conds false
    pure (.node (pyStr nm) ready (pyStr internalIp) (jEqStr internalIp a.ip))
  else
    pure .noNodes

/-- Section 2: node health (`try ... except` around the whole body). -/
def secNode (env : Env) (a : Args) (s : St) : SRes :=
  let s := emit (.info hdrNode) (emit (.raw "") s)
  match nodeFacts env a with
  | .error e => .ok (failC ("kubectl get nodes failed: " ++ e) s)
  | .ok .noNodes => .ok (failC "No nodes returned by API" s)
  | .ok (.node name ready ipStr ipm) =>
    let s :=
      if ready then okC ("Node " ++ (name ++ " Ready=True")) s
      else failC ("Node " ++ (name ++ " not Ready")) s
    .ok (if ipm then okC ("Node InternalIP=" ++ (ipStr ++ " (expected)")) s
      else failC ("Node InternalIP=" ++ (ipStr ++ (" (expected " ++ (a.ip ++ ")")))) s)

/-- The four tracked kube-system components. -/
structure Need where
  coredns : Bool
  traefik : Bool
  metricsServer : Bool
  localPath : Bool
deriving DecidableEq, Repr

/-- The `for p in sys_pods: for key in need: if name.startswith(key)
and pod_ready(p): need[key] = True` loop. -/
def needFold : List Json → Need → Except String Need
  | [], n => .ok n
  | p :: rest, n => do
    let md ← pySub p "metadata"
    let nmJ ← pySub md "name"
    let nm ← asPyStr nmJ
    let hit := fun key cur => cur || (strStarts nm key && pod_ready p)
    needFold rest ⟨hit "coredns" n.coredns, hit "traefik" n.traefik,
      hit "metrics-server" n.metricsServer, hit "local-path-provisioner" n.localPath⟩

/-- Fallible work of the core-pods section (before any print). -/
def coreFacts (env : Env) (a : Args) : Except String Need := do
  let pj ← kubectl_json env "-n kube-system get pods" a.kubeconfig
  let itemsJ ← pyGetD pj "items" (.arr [])
  let pods ← jIter itemsJ
  needFold pods ⟨false, false, false, false⟩

/-- One `comp Running/Ready` / `comp not Ready` emission. -/
def compEmit (b : Bool) (okM failM : String) (s : St) : St :=
  if b then okC okM s else failC failM s

/-- Section 3: core kube-system pods. -/
def secCore (env : Env) (a : Args) (s : St) : SRes :=
  let s := emit (.info hdrCore) (emit (.raw "") s)
  match coreFacts env a with
  | .error e => .ok (failC ("Failed to read kube-system pods: " ++ e) s)
  | .ok n =>
    let s := compEmit n.coredns "coredns Running/Ready" "coredns not Ready" s
    let s := compEmit n.traefik "traefik Running/Ready" "traefik not Ready" s
    let s := compEmit n.metricsServer "metrics-server Running/Ready" "metrics-server not Ready" s
    .ok (compEmit n.localPath "local-path-provisioner Running/Ready" "local-path-provisioner not Ready" s)

/-- One namespace existence check (`kubectl get ns <name>`, exit code
only; the per-iteration `except` is unreachable since `sh` is total). -/
def nsCheck (env : Env) (a : Args) (ns : String) (s : St) : St :=
  let r := sh (env.shO (withKc a.kubeconfig ("kubectl get ns " ++ ns))) 20
  if r.rc == 0 then okC ("Namespace " ++ (ns ++ " exists")) s
  else warnC ("Namespace " ++ (ns ++ " missing (may be expected if not installed)")) s

/-- Section 4: namespaces present. -/
def secNs (env : Env) (a : Args) (s : St) : SRes :=
  .ok (nsCheck env a "default" (nsCheck env a "logging" (nsCheck env a "monitoring"
    (nsCheck env a "argocd" (emit (.info hdrNs) (emit (.raw "") s))))))

/-- Extraction `avail = d.get("status", {}).get("availableReplicas", 0)` followed
by `avail and int(avail) > 0` on decoded deployment JSON. -/
def availFrom (parse : String → Except String Json) (out : String) : Except String Bool := do
  let d ← parse out
  let st ← pyGetD d "status" (.obj [])
  let avail ← pyGetD st "availableReplicas" (.num 0)
  if pyTruthy avail then do
    let n ← pyInt avail
    pure (decide (0 < n))
  else
    pure false

/-- An HTTP(S) probe line of the app sections: `HTTP probe <app>
(<fqdn>) -> <status> <reason>` on success, `HTTP probe <app> failed:
<reason>` otherwise. -/
def probeEmit (pr : ProbeRes) (label scheme host : String) (s : St) : St :=
  if pr.alive then
    okC (scheme ++ (" probe " ++ (label ++ (" (" ++ (host ++ (") -> " ++
      (toString pr.status ++ (" " ++ pr.reason)))))))) s
  else
    failC (scheme ++ (" probe " ++ (label ++ (" failed: " ++ pr.reason)))) s

/-- Body of the Argo CD section (raises propagate to the section's
handler). -/
def argoBody (env : Env) (a : Args) (s : St) : SRes :=
  let r := sh (env.shO (withKc a.kubeconfig "kubectl -n argocd get deploy argocd-server -o json")) 20
  let step1 : Except String St :=
    if r.rc == 0 then
      (availFrom env.parse r.out).map (fun av =>
        if av then okC "argocd-server deployment Available" s
        else failC "argocd-server deployment not Available" s)
    else .ok (failC ("argocd-server deployment not found (" ++ (r.err ++ ")")) s)
  match step1 with
  | .error e => .err e s
  | .ok s =>
    let s := probeEmit (http_probe (env.probeO "http" a.argocd)) "argocd" "HTTP" a.argocd s
    if a.https then
      .ok (probeEmit (http_probe (env.probeO "https" a.argocd)) "argocd" "HTTPS" a.argocd s)
    else .ok s

/-- Section 5: Argo CD. -/
def secArgo (env : Env) (a : Args) (s : St) : SRes :=
  let s := emit (.info hdrArgo) (emit (.raw "") s)
  match argoBody env a s with
  | .ok t => .ok t
  | .err e t => .ok (failC ("ArgoCD check error: " ++ e) t)

/-- Second half of the Grafana / Prometheus section: the lenient
operator deployment check (warn on absence), then the probes.  A decode
failure of the operator JSON raises after the Grafana line was already
printed. -/
def monTail (env : Env) (a : Args) (s : St) : SRes :=
  let r2 := sh (env.shO (withKc a.kubeconfig "kubectl -n monitoring get deploy kube-prometheus-stack-operator -o json")) 20
  let step2 : Except String St :=
    if r2.rc == 0 then
      (availFrom env.parse r2.out).map (fun av =>
        if av then okC "Prometheus Operator Available" s
        else warnC "Prometheus Operator not Available yet" s)
    else .ok (warnC "Prometheus Operator deployment not found" s)
  match step2 with
  | .error e => .err e s
  | .ok s =>
    let s := probeEmit (http_probe (env.probeO "http" a.grafana)) "grafana" "HTTP" a.grafana s
    if a.https then
      .ok (probeEmit (http_probe (env.probeO "https" a.grafana)) "grafana" "HTTPS" a.grafana s)
    else .ok s

/-- Body of the Grafana / Prometheus section: strict deployment check
for Grafana, then the operator check and the probes (`monTail`). -/
def monBody (env : Env) (a : Args) (s : St) : SRes :=
  let r := sh (env.shO (withKc a.kubeconfig "kubectl -n monitoring get deploy kube-prometheus-stack-grafana -o json")) 20
  let step1 : Except String St :=
    if r.rc == 0 then
      (availFrom env.parse r.out).map (fun av =>
        if av then okC "Grafana deployment Available" s
        else failC "Grafana deployment not Available" s)
    else .ok (failC ("Grafana deployment not found (" ++ (r.err ++ ")")) s)
  match step1 with
  | .error e => .err e s
  | .ok s => monTail env a s

/-- Section 6: Grafana / Prometheus. -/
def secMon (env : Env) (a : Args) (s : St) : SRes :=
  let s := emit (.info hdrMon) (emit (.raw "") s)
  match monBody env a s with
  | .ok t => .ok t
  | .err e t => .ok (failC ("Monitoring check error: " ++ e) t)

/-- Short-circuiting `any(...)` over a generator that can raise. -/
def anyE (f : Json → Except String Bool) : List Json → Except String Bool
  | [] => .ok false
  | x :: rest => do
    let b ← f x
    if b then pure true else anyE f rest

/-- Fallible work of the Loki / Promtail section. -/
def lokiFacts (env : Env) (a : Args) : Except String (Bool × Bool) := do
  let pj ← kubectl_json env "-n logging get pods" a.kubeconfig
  let itemsJ ← pyGetD pj "items" (.arr [])
  let pods ← jIter itemsJ
  let hasLoki ← anyE (fun p => do
    let md ← pySub p "metadata"
    let nmJ ← pySub md "name"
    let nm ← asPyStr nmJ
    pure (strStarts nm "loki" && pod_ready p)) pods
  let hasPromtail ← anyE (fun p => do
    let md ← pySub p "metadata"
    let nmJ ← pySub md "name"
    let nm ← asPyStr nmJ
    pure (strContains nm "promtail" && pod_ready p)) pods
  pure (hasLoki, hasPromtail)

/-- Section 7: Loki / Promtail (failures are warnings here). -/
def secLoki (env : Env) (a : Args) (s : St) : SRes :=
  let s := emit (.info hdrLoki) (emit (.raw "") s)
  match lokiFacts env a with
  | .error e => .ok (warnC ("Loki/Promtail check error: " ++ e) s)
  | .ok (hl, hp) =>
    let s := if hl then okC "Loki pod Running/Ready" s else warnC "Loki not Ready" s
    .ok (if hp then okC "Promtail pod Running/Ready" s else warnC "Promtail not Ready" s)

/-- Section 8: demo app whoami.  The probe line condition transcribes
the Python expression `alive and "Hostname:" in body or "Request served
by" in body or code in (200, 301, 302)` with Python's precedence:
`(alive and A) or B or C`. -/
def secWhoami (env : Env) (a : Args) (s : St) : SRes :=
  let s := emit (.info hdrWhoami) (emit (.raw "") s)
  let r := sh (env.shO (withKc a.kubeconfig "kubectl -n default get svc whoami")) 20
  let s := if r.rc == 0 then okC "whoami Service exists" s else warnC "whoami Service missing" s
  let pr := http_probe (env.probeO "http" a.whoami)
  let s :=
    if (pr.alive && strContains pr.body "Hostname:") || strContains pr.body "Request served by"
        || (pr.status == 200 || pr.status == 301 || pr.status == 302) then
      okC ("HTTP probe whoami (" ++ (a.whoami ++ (") -> " ++
        (toString pr.status ++ (" " ++ pr.reason))))) s
    else
      failC ("HTTP probe whoami failed: " ++ (if pr.reason == "" then "non-200 response" else pr.reason)) s
  if a.https then
    .ok (probeEmit (http_probe (env.probeO "https" a.whoami)) "whoami" "HTTPS" a.whoami s)
  else .ok s

/-- One DNS hint: resolve, compare to the configured IP; every outcome
only prints (no counter is touched in this section). -/
def dnsCheck (env : Env) (a : Args) (host : String) (s : St) : St :=
  match env.dns host with
  | .ok ip2 =>
    if ip2 == a.ip then emit (.ok ("DNS " ++ (host ++ (" -> " ++ ip2)))) s
    else emit (.warn ("DNS " ++ (host ++ (" -> " ++ (ip2 ++ (" (expected " ++ (a.ip ++ ")"))))))) s
  | .error _ => emit (.warn ("DNS " ++ (host ++ " not resolvable on this VM (ok if Pi-hole not used by VM)"))) s

/-- Section 9: optional DNS hints. -/
def secDns (env : Env) (a : Args) (s : St) : SRes :=
  .ok (dnsCheck env a a.whoami (dnsCheck env a a.grafana (dnsCheck env a a.argocd
    (emit (.info hdrDns) (emit (.raw "") s)))))

/-- The 66-character `=` banner. -/
def eqBar : String := String.mk (List.replicate 66 '=')

/-- The counters line of the summary (icons/colours elided). -/
def summaryLine (p w f : Nat) : String :=
  "Passed: " ++ (toString p ++ ("   Warn: " ++ (toString w ++ ("   Failed: " ++ toString f))))

/-- The in-summary remediation sed line (note: unlike the kubeconfig
section, this one hardcodes the k3s path and has no escaped dots). -/
def sedHintSummary (ip : String) : String :=
  "   sudo sed -i \x27s#https://127.0.0.1:6443#https://" ++ (ip ++ ":6443#\x27 /etc/rancher/k3s/k3s.yaml")

/-- Section 10: the summary banner and remediation hints; always runs,
never touches the counters. -/
def secSummary (_env : Env) (a : Args) (s : St) : SRes :=
  let s := emit (.raw eqBar) (emit (.raw "") s)
  let s := emit (.raw "STACK HEALTH SUMMARY") s
  let s := emit (.raw eqBar) s
  let s := emit (.raw (summaryLine s.passed s.warned s.failed)) s
  let s :=
    if s.failed == 0 then emit (.raw "All critical checks passed.") s
    else
      let s := emit (.raw "Some critical checks failed. See items marked with ❌.") s
      let s := emit (.raw "Common fixes:") s
      let s := emit (.raw (" - Ensure kubeconfig server points to https://" ++ (a.ip ++ ":6443"))) s
      let s := emit (.raw (sedHintSummary a.ip)) s
      let s := emit (.raw " - Check \x27kubectl -n monitoring describe pod <operator-pod>\x27 if operator is stuck.") s
      emit (.raw " - Verify Pi-hole A records point FQDNs to your node IP, or keep using Host headers.") s
  .ok (emit (.raw eqBar) s)

/-- The ten sections of `main`, in source order. -/
def sections (env : Env) (a : Args) : List (St → SRes) :=
  [secKubeApi env a, secNode env a, secCore env a, secNs env a, secArgo env a,
   secMon env a, secLoki env a, secWhoami env a, secDns env a, secSummary env a]

/-- Run a list of sections from a state, propagating any uncaught
exception. -/
def runSecs (l : List (St → SRes)) (s : St) : SRes :=
  l.foldl SRes.seq (.ok s)

/-- Function `main` of the script: run all ten sections in order from the zeroed
state.  (Named `mainRun` because `main` is reserved for entry points.) -/
def mainRun (env : Env) (a : Args) : SRes :=
  runSecs (sections env a) initSt

/-- The run truncated to its first `k` sections (for stating that the
counters never decrease as the run progresses). -/
def runPrefix (env : Env) (a : Args) (k : Nat) : SRes :=
  runSecs ((sections env a).take k) initSt

/-- Is this a pass (`ok`) line? -/
def isOkL : Line → Bool
  | .ok _ => true
  | _ => false

/-- Is this a warn line? -/
def isWarnL : Line → Bool
  | .warn _ => true
  | _ => false

/-- Is this a fail line? -/
def isFailL : Line → Bool
  | .fail _ => true
  | _ => false

/-- Number of pass lines in a transcript. -/
def countOk (l : List Line) : Nat := l.countP isOkL

/-- Number of warn lines in a transcript. -/
def countW (l : List Line) : Nat := l.countP isWarnL

/-- Number of fail lines in a transcript. -/
def countF (l : List Line) : Nat := l.countP isFailL

/-- How many `ok` lines the kubeconfig sub-check prints without
incrementing `passed` (the informational `kubeconfig found at ...` and
`kubeconfig server: ...` lines; when the read raises, only the found
line was printed before the run died). -/
def kubeOkU (env : Env) : Nat :=
  if env.isfile then
    match env.readKubeconfig with
    | .ok cfg => if strContains (serverLineOf cfg) "127.0.0.1:6443" then 1 else 2
    | .error _ => 1
  else 0

/-- Lines the DNS hint for one host prints without touching a counter:
`(ok lines, warn lines)`. -/
def dnsHostU (env : Env) (a : Args) (host : String) : Nat × Nat :=
  match env.dns host with
  | .ok ip2 => if ip2 == a.ip then (1, 0) else (0, 1)
  | .error _ => (0, 1)

/-- Uncounted `ok` lines of the DNS-hints section. -/
def dnsOkU (env : Env) (a : Args) : Nat :=
  (dnsHostU env a a.argocd).1 + ((dnsHostU env a a.grafana).1 + (dnsHostU env a a.whoami).1)

/-- Uncounted `warn` lines of the DNS-hints section. -/
def dnsWarnU (env : Env) (a : Args) : Nat :=
  (dnsHostU env a a.argocd).2 + ((dnsHostU env a a.grafana).2 + (dnsHostU env a a.whoami).2)

/-- Relation between two run states reached one from the other: the
transcript only grows, the counters never decrease, and each counter
tracks the lines of its kind exactly, except `uOk` pass lines and `uW`
warn lines printed without an increment. -/
def StRel (s t : St) (uOk uW : Nat) : Prop :=
  s.lines <+: t.lines ∧
    s.passed ≤ t.passed ∧ s.warned ≤ t.warned ∧ s.failed ≤ t.failed ∧
    t.passed + countOk s.lines + uOk = s.passed + countOk t.lines ∧
    t.warned + countW s.lines + uW = s.warned + countW t.lines ∧
    t.failed + countF s.lines = s.failed + countF t.lines

/-- Bundled facts about a state transformer used by the check sections. -/
def AccSt (f : St → St) (uOk uW : Nat) : Prop :=
  ∀ s : St, StRel s (f s) uOk uW

/-- The same bundle for a whole section (which returns an `SRes`),
together with the fact that the section never lets an exception escape
and prints its header line. -/
def AccSec (f : St → SRes) (hd : Line) (uOk uW : Nat) : Prop :=
  ∀ s : St, ∃ t : St, f s = .ok t ∧ hd ∈ t.lines ∧ StRel s t uOk uW

/-- The spec-side reading of "this container status entry reports
`ready = true`": a mapping whose `ready` key holds the boolean `true`
(written from the claim's words, to compare with what the code tests). -/
def specReportsReadyTrue (c : Json) : Bool :=
  match c with
  | .obj ckvs =>
    match lookupLast ckvs "ready" with
    | some (.bool true) => true
    | _ => false
  | _ => false

/-- The status mapping `pod_ready` works on, when there is one:
`pod.get("status", {})` of a mapping pod, when that is itself a
mapping. -/
def statusObjOf (pod : Json) : Option (List (String × Json)) :=
  match pod with
  | .obj kvs =>
    match (lookupLast kvs "status").getD (.obj []) with
    | .obj skvs => some skvs
    | _ => none
  | _ => none

/-- The container-status list `pod_ready` iterates over, when the
`... or []` normalisation yields a list: `containerStatuses` if truthy,
else `[]`; `none` when it is a truthy non-list (which raises in Python
and is caught to `False`). -/
def csListOf (skvs : List (String × Json)) : Option (List Json) :=
  let cs0 := (lookupLast skvs "containerStatuses").getD .null
  let cs := if pyTruthy cs0 then cs0 else .arr []
  match cs with
  | .arr xs => some xs
  | _ => none

/-- A container-status entry whose `ready` field is the *string*
`"yes"`: truthy in Python, but not the boolean `true`. -/
def cexEntry : Json := .obj [("ready", .str "yes")]

/-- Status mapping of the counterexample pod: phase `Running`, one
container status with a truthy non-boolean `ready`. -/
def cexSkvs : List (String × Json) :=
  [("phase", .str "Running"), ("containerStatuses", .arr [cexEntry])]

/-- The counterexample pod itself. -/
def cexPod : Json := .obj [("status", .obj cexSkvs)]

/-- A pod with phase `Running` and an empty container-status list. -/
def runningEmptyPod : Json :=
  .obj [("status", .obj [("phase", .str "Running"), ("containerStatuses", .arr [])])]

/-- A fully healthy pod (used to exercise the positive direction). -/
def goodPod : Json :=
  .obj [("status", .obj [("phase", .str "Running"),
    ("containerStatuses", .arr [.obj [("ready", .bool true)]])])]

/-- A world in which everything external fails: no kubeconfig file,
every command exits 1 with stderr `boom`, JSON never decodes, every
probe raises `connection refused`, DNS never resolves. -/
def envA : Env :=
  { isfile := false, readKubeconfig := .ok "",
    shO := fun _ => .completed 1 "" "boom",
    parse := fun _ => .error "bad json",
    probeO := fun _ _ => .exn "connection refused",
    dns := fun _ => .error "gai error" }

/-- A world with a kubeconfig file that still points at the loopback
server address. -/
def envB : Env :=
  { isfile := true,
    readKubeconfig := .ok "apiVersion: v1\nclusters:\n- cluster:\n    server: https://127.0.0.1:6443\n",
    shO := fun _ => .completed 1 "" "boom",
    parse := fun _ => .error "bad json",
    probeO := fun _ _ => .exn "connection refused",
    dns := fun _ => .error "gai error" }

/-- A world in which the whoami service exists and the whoami HTTP
probe answers `503 Service Unavailable` with an error page that happens
to contain the marker text `Request served by`. -/
def env5 : Env :=
  { isfile := true, readKubeconfig := .ok "",
    shO := fun _ => .completed 0 "" "",
    parse := fun _ => .error "bad json",
    probeO := fun _ _ => .response 503 "Service Unavailable" "Request served by whoami-5b8c6d",
    dns := fun _ => .error "gai error" }

/-- A world in which the kubeconfig path names an existing file that the
process cannot read: `open()` raises `PermissionError` (e.g. the
root-owned default `/etc/rancher/k3s/k3s.yaml` read by a non-root
user). -/
def envC : Env :=
  { isfile := true, readKubeconfig := .error "PermissionError: Permission denied",
    shO := fun _ => .completed 1 "" "boom",
    parse := fun _ => .error "bad json",
    probeO := fun _ _ => .exn "connection refused",
    dns := fun _ => .error "gai error" }

-- Sanity checks against the Python semantics (concrete evaluations).
example : pod_ready goodPod = true := by decide
example : pod_ready runningEmptyPod = false := by decide
example : pod_ready (.obj [("status", .obj [("phase", .str "Pending"),
    ("containerStatuses", .arr [.obj [("ready", .bool true)]])])]) = false := by decide
example : pod_ready (.str "oops") = false := by decide
example : pod_ready cexPod = true := by decide
example : (http_probe (.response 404 "Not Found" "x")).alive = true := by decide
example : (http_probe (.response 503 "Service Unavailable" "x")).alive = false := by decide
example : (http_probe (.exn "connection refused")) = ⟨false, 0, "connection refused", ""⟩ := by decide
example : sh .timedOut 20 = ⟨124, "", "timeout after 20s", true⟩ := by decide
example : sh (.completed 0 "  ok \n" " e ") 20 = ⟨0, "ok", "e", false⟩ := by decide

/-- Counting pass lines distributes over append. -/
@[simp] lemma countOk_append (l₁ l₂ : List Line) : countOk (l₁ ++ l₂) = countOk l₁ + countOk l₂ := by
  simp [countOk, List.countP_append]

/-- Counting warn lines distributes over append. -/
@[simp] lemma countW_append (l₁ l₂ : List Line) : countW (l₁ ++ l₂) = countW l₁ + countW l₂ := by
  simp [countW, List.countP_append]

/-- Counting fail lines distributes over append. -/
@[simp] lemma countF_append (l₁ l₂ : List Line) : countF (l₁ ++ l₂) = countF l₁ + countF l₂ := by
  simp [countF, List.countP_append]

/-- Empty transcript. -/
@[simp] lemma countOk_nil : countOk [] = 0 := rfl

/-- Empty transcript. -/
@[simp] lemma countW_nil : countW [] = 0 := rfl

/-- Empty transcript. -/
@[simp] lemma countF_nil : countF [] = 0 := rfl

/-- Pass count of a cons. -/
@[simp] lemma countOk_cons (l : Line) (t : List Line) :
    countOk (l :: t) = (if isOkL l then 1 else 0) + countOk t := by
  simp [countOk, List.countP_cons]
  omega

/-- Warn count of a cons. -/
@[simp] lemma countW_cons (l : Line) (t : List Line) :
    countW (l :: t) = (if isWarnL l then 1 else 0) + countW t := by
  simp [countW, List.countP_cons]
  omega

/-- Fail count of a cons. -/
@[simp] lemma countF_cons (l : Line) (t : List Line) :
    countF (l :: t) = (if isFailL l then 1 else 0) + countF t := by
  simp [countF, List.countP_cons]
  omega

/-- Kind tests on the five constructors. -/
@[simp] lemma isOkL_ok (m : String) : isOkL (.ok m) = true := rfl

/-- Kind test. -/
@[simp] lemma isOkL_fail (m : String) : isOkL (.fail m) = false := rfl

/-- Kind test. -/
@[simp] lemma isOkL_warn (m : String) : isOkL (.warn m) = false := rfl

/-- Kind test. -/
@[simp] lemma isOkL_info (m : String) : isOkL (.info m) = false := rfl

/-- Kind test. -/
@[simp] lemma isOkL_raw (m : String) : isOkL (.raw m) = false := rfl

/-- Kind test. -/
@[simp] lemma isWarnL_ok (m : String) : isWarnL (.ok m) = false := rfl

/-- Kind test. -/
@[simp] lemma isWarnL_fail (m : String) : isWarnL (.fail m) = false := rfl

/-- Kind test. -/
@[simp] lemma isWarnL_warn (m : String) : isWarnL (.warn m) = true := rfl

/-- Kind test. -/
@[simp] lemma isWarnL_info (m : String) : isWarnL (.info m) = false := rfl

/-- Kind test. -/
@[simp] lemma isWarnL_raw (m : String) : isWarnL (.raw m) = false := rfl

/-- Kind test. -/
@[simp] lemma isFailL_ok (m : String) : isFailL (.ok m) = false := rfl

/-- Kind test. -/
@[simp] lemma isFailL_fail (m : String) : isFailL (.fail m) = true := rfl

/-- Kind test. -/
@[simp] lemma isFailL_warn (m : String) : isFailL (.warn m) = false := rfl

/-- Kind test. -/
@[simp] lemma isFailL_info (m : String) : isFailL (.info m) = false := rfl

/-- Kind test. -/
@[simp] lemma isFailL_raw (m : String) : isFailL (.raw m) = false := rfl

/-- A `raw` print: transcript grows, nothing counted. -/
lemma emitRaw_acc (m : String) : AccSt (emit (.raw m)) 0 0 := by
  intro s
  simp [AccSt, StRel, emit, isOkL, isWarnL, isFailL]

/-- An `info` print: transcript grows, nothing counted. -/
lemma emitInfo_acc (m : String) : AccSt (emit (.info m)) 0 0 := by
  intro s
  simp [AccSt, StRel, emit, isOkL, isWarnL, isFailL]

/-- A bare `ok` print without `passed += 1`: one uncounted pass line. -/
lemma emitOk_acc (m : String) : AccSt (emit (.ok m)) 1 0 := by
  intro s
  simp [AccSt, StRel, emit, isOkL, isWarnL, isFailL] <;> omega

/-- A bare `warn` print without `warned += 1`: one uncounted warn line. -/
lemma emitWarn_acc (m : String) : AccSt (emit (.warn m)) 0 1 := by
  intro s
  simp [AccSt, StRel, emit, isOkL, isWarnL, isFailL] <;> omega

/-- Bundle for `ok(...)` + `passed += 1`. -/
lemma okC_acc (m : String) : AccSt (okC m) 0 0 := by
  intro s
  simp [AccSt, StRel, okC, emit, incP, isOkL, isWarnL, isFailL] <;> omega

/-- Bundle for `warn(...)` + `warned += 1`. -/
lemma warnC_acc (m : String) : AccSt (warnC m) 0 0 := by
  intro s
  simp [AccSt, StRel, warnC, emit, incW, isOkL, isWarnL, isFailL] <;> omega

/-- Bundle for `fail(...)` + `failed += 1`. -/
lemma failC_acc (m : String) : AccSt (failC m) 0 0 := by
  intro s
  simp [AccSt, StRel, failC, emit, incF, isOkL, isWarnL, isFailL] <;> omega

/-- Sequencing two transformers adds up their uncounted lines. -/
lemma AccSt_comp {f g : St → St} {u₁ w₁ u₂ w₂ : Nat}
    (hf : AccSt f u₁ w₁) (hg : AccSt g u₂ w₂) :
    AccSt (fun s => g (f s)) (u₁ + u₂) (w₁ + w₂) := by
  intro s
  obtain ⟨p1, a1, a2, a3, e1, e2, e3⟩ := hf s
  obtain ⟨p2, b1, b2, b3, d1, d2, d3⟩ := hg (f s)
  dsimp only
  exact ⟨p1.trans p2, le_trans a1 b1, le_trans a2 b2, le_trans a3 b3,
    by omega, by omega, by omega⟩

/-- Branching preserves the bundle when both branches satisfy it. -/
lemma AccSt_ite {c : Bool} {f g : St → St} {u w : Nat}
    (hf : AccSt f u w) (hg : AccSt g u w) :
    AccSt (fun s => if c then f s else g s) u w := by
  cases c
  · simpa using hg
  · simpa using hf

/-- The kubeconfig sub-check either finishes normally — with exactly
its `kubeOkU` informational `ok` lines escaping the counters and every
other printed line tallied — or the read of the existing file raises
and the exception escapes with only the `found` line printed. -/
lemma kubeconfigCheck_disj (env : Env) (a : Args) (s : St) :
    (∃ t, kubeconfigCheck env a s = .ok t ∧ StRel s t (kubeOkU env) 0) ∨
    (∃ e, env.isfile = true ∧ env.readKubeconfig = .error e ∧
      kubeconfigCheck env a s
        = .err e (emit (.ok ("kubeconfig found at " ++ a.kubeconfig)) s)) := by
  cases hf : env.isfile
  · left
    refine ⟨emit (.raw "") (emit (.raw (sedHint a.ip a.kubeconfig)) (emit (.raw "Please run:")
      (emit (.raw "") (failC ("kubeconfig missing: " ++ a.kubeconfig) s)))), ?_, ?_⟩
    · simp [kubeconfigCheck, hf]
    · simp [kubeOkU, hf, StRel, emit, failC, incF]
      omega
  · cases hrk : env.readKubeconfig with
    | error e =>
      right
      exact ⟨e, rfl, rfl, by simp [kubeconfigCheck, hf, hrk]⟩
    | ok cfg =>
      left
      cases hlb : strContains (serverLineOf cfg) "127.0.0.1:6443"
      · refine ⟨emit (.ok ("kubeconfig server: " ++ (if pyStrip (serverLineOf cfg) == "" then "<unknown>"
            else pyStrip (serverLineOf cfg)))) (emit (.ok ("kubeconfig found at " ++ a.kubeconfig)) s), ?_, ?_⟩
        · simp [kubeconfigCheck, hf, hrk, hlb]
        · simp [kubeOkU, hf, hrk, hlb, StRel, emit]
          omega
      · refine ⟨incW (emit (.warn "kubeconfig still points to https://127.0.0.1:6443 (will still try using it)")
            (emit (.ok ("kubeconfig found at " ++ a.kubeconfig)) s)), ?_, ?_⟩
        · simp [kubeconfigCheck, hf, hrk, hlb]
        · simp [kubeOkU, hf, hrk, hlb, StRel, emit, incW]
          omega

/-- The `/readyz` sub-check always tallies its one line. -/
lemma readyzCheck_acc (env : Env) (a : Args) : AccSt (readyzCheck env a) 0 0 := by
  unfold readyzCheck
  exact AccSt_ite (okC_acc _) (failC_acc _)

/-- Each namespace check tallies its one line. -/
lemma nsCheck_acc (env : Env) (a : Args) (ns : String) : AccSt (nsCheck env a ns) 0 0 := by
  unfold nsCheck
  exact AccSt_ite (okC_acc _) (warnC_acc _)

/-- Each core-pod component line is tallied. -/
lemma compEmit_acc (b : Bool) (okM failM : String) : AccSt (compEmit b okM failM) 0 0 := by
  unfold compEmit
  exact AccSt_ite (okC_acc _) (failC_acc _)

/-- Each probe line is tallied. -/
lemma probeEmit_acc (pr : ProbeRes) (label scheme host : String) :
    AccSt (probeEmit pr label scheme host) 0 0 := by
  unfold probeEmit
  exact AccSt_ite (okC_acc _) (failC_acc _)

/-- One DNS hint prints exactly its `dnsHostU` uncounted lines and
never touches a counter. -/
lemma dnsCheck_acc (env : Env) (a : Args) (host : String) :
    AccSt (dnsCheck env a host) (dnsHostU env a host).1 (dnsHostU env a host).2 := by
  unfold dnsCheck dnsHostU
  cases h : env.dns host with
  | ok ip2 =>
    cases hip : ip2 == a.ip
    · simpa [hip] using emitWarn_acc
        ("DNS " ++ (host ++ (" -> " ++ (ip2 ++ (" (expected " ++ (a.ip ++ ")"))))))
    · simpa [hip] using emitOk_acc ("DNS " ++ (host ++ (" -> " ++ ip2)))
  | error e =>
    simpa using emitWarn_acc
      ("DNS " ++ (host ++ " not resolvable on this VM (ok if Pi-hole not used by VM)"))

/-- Composition: `StRel` chains, adding up the uncounted lines. -/
lemma StRel_comp {s t r : St} {u₁ w₁ u₂ w₂ : Nat}
    (h₁ : StRel s t u₁ w₁) (h₂ : StRel t r u₂ w₂) : StRel s r (u₁ + u₂) (w₁ + w₂) := by
  obtain ⟨p1, a1, a2, a3, e1, e2, e3⟩ := h₁
  obtain ⟨p2, b1, b2, b3, d1, d2, d3⟩ := h₂
  exact ⟨p1.trans p2, le_trans a1 b1, le_trans a2 b2, le_trans a3 b3,
    by omega, by omega, by omega⟩

/-- Printing the leading blank line and a header relates the states
neutrally. -/
lemma StRel_header (hd : Line) (h1 : isOkL hd = false) (h2 : isWarnL hd = false)
    (h3 : isFailL hd = false) (s : St) : StRel s (emit hd (emit (.raw "") s)) 0 0 := by
  simp [StRel, emit, h1, h2, h3]

/-- A section of the shape `print(); info(header); body` where the body
is a counter-faithful transformer: it returns normally, prints its
header and satisfies the bundle. -/
lemma secStep {F : St → St} {u w : Nat} (hF : AccSt F u w) (hd : Line)
    (h1 : isOkL hd = false) (h2 : isWarnL hd = false) (h3 : isFailL hd = false) (s : St) :
    ∃ t : St, SRes.ok (F (emit hd (emit (.raw "") s))) = SRes.ok t ∧
      hd ∈ t.lines ∧ StRel s t u w := by
  have hh := StRel_header hd h1 h2 h3 s
  have hb := hF (emit hd (emit (.raw "") s))
  refine ⟨_, rfl, ?_, ?_⟩
  · have hm : hd ∈ (emit hd (emit (.raw "") s)).lines := by simp [emit]
    exact hb.1.subset hm
  · simpa using StRel_comp hh hb

/-- Section 1 (kubeconfig & API), provided reading an existing
kubeconfig does not raise: finishes normally, prints its header; its
only uncounted lines are the informational kubeconfig `ok` lines. -/
lemma secKubeApi_acc (env : Env) (a : Args)
    (hok : env.isfile = true → ∃ cfg, env.readKubeconfig = Except.ok cfg) :
    AccSec (secKubeApi env a) (.info hdrKube) (kubeOkU env) 0 := by
  intro s
  have hh := StRel_header (.info hdrKube) rfl rfl rfl s
  have hmem : Line.info hdrKube ∈ (emit (.info hdrKube) (emit (.raw "") s)).lines := by
    simp [emit]
  rcases kubeconfigCheck_disj env a (emit (.info hdrKube) (emit (.raw "") s)) with
    ⟨t, ht, hrel⟩ | ⟨e, hif, herr, _⟩
  · have hr := readyzCheck_acc env a t
    refine ⟨readyzCheck env a t, by simp [secKubeApi, ht], ?_, ?_⟩
    · exact hr.1.subset (hrel.1.subset hmem)
    · simpa using StRel_comp hh (StRel_comp hrel hr)
  · obtain ⟨cfg, hcfg⟩ := hok hif
    rw [hcfg] at herr
    exact absurd herr (by simp)

/-- If the kubeconfig path names an existing file whose read raises,
the exception escapes the whole run: sections 2-10 never execute and no
summary is printed — `main` dies right after the `found` line. -/
lemma main_dies (env : Env) (a : Args) (e : String)
    (hif : env.isfile = true) (he : env.readKubeconfig = .error e) :
    mainRun env a = .err e (emit (.ok ("kubeconfig found at " ++ a.kubeconfig))
      (emit (.info hdrKube) (emit (.raw "") initSt))) := by
  simp [mainRun, runSecs, sections, List.foldl, SRes.seq, secKubeApi, kubeconfigCheck, hif, he]

/-- Section 2 (node health): never raises, prints its header, tallies
every line. -/
lemma secNode_acc (env : Env) (a : Args) :
    AccSec (secNode env a) (.info hdrNode) 0 0 := by
  intro s
  cases hf : nodeFacts env a with
  | error e =>
    simpa [secNode, hf] using secStep (failC_acc ("kubectl get nodes failed: " ++ e))
      (.info hdrNode) rfl rfl rfl s
  | ok oc =>
    cases oc with
    | noNodes =>
      simpa [secNode, hf] using secStep (failC_acc "No nodes returned by API")
        (.info hdrNode) rfl rfl rfl s
    | node name ready ipStr ipm =>
      have h1 : AccSt (fun t => if ready = true then okC ("Node " ++ (name ++ " Ready=True")) t
          else failC ("Node " ++ (name ++ " not Ready")) t) 0 0 :=
        AccSt_ite (okC_acc _) (failC_acc _)
      have h2 : AccSt (fun t => if ipm = true then okC ("Node InternalIP=" ++ (ipStr ++ " (expected)")) t
          else failC ("Node InternalIP=" ++ (ipStr ++ (" (expected " ++ (a.ip ++ ")")))) t) 0 0 :=
        AccSt_ite (okC_acc _) (failC_acc _)
      have hF := AccSt_comp h1 h2
      simpa [AccSec, secNode, hf] using secStep hF (.info hdrNode) rfl rfl rfl s

/-- Reflexivity: `StRel` holds from a state to itself. -/
lemma StRel_refl (s : St) : StRel s s 0 0 := by
  simp [StRel]

/-- Section 3 (core kube-system pods). -/
lemma secCore_acc (env : Env) (a : Args) :
    AccSec (secCore env a) (.info hdrCore) 0 0 := by
  intro s
  cases hf : coreFacts env a with
  | error e =>
    simpa [secCore, hf] using secStep (failC_acc ("Failed to read kube-system pods: " ++ e))
      (.info hdrCore) rfl rfl rfl s
  | ok n =>
    have hF := AccSt_comp (compEmit_acc n.coredns "coredns Running/Ready" "coredns not Ready")
      (AccSt_comp (compEmit_acc n.traefik "traefik Running/Ready" "traefik not Ready")
        (AccSt_comp (compEmit_acc n.metricsServer "metrics-server Running/Ready" "metrics-server not Ready")
          (compEmit_acc n.localPath "local-path-provisioner Running/Ready" "local-path-provisioner not Ready")))
    simpa [AccSec, secCore, hf] using secStep hF (.info hdrCore) rfl rfl rfl s

/-- Section 4 (namespaces). -/
lemma secNs_acc (env : Env) (a : Args) :
    AccSec (secNs env a) (.info hdrNs) 0 0 := by
  intro s
  have hF := AccSt_comp (nsCheck_acc env a "argocd")
    (AccSt_comp (nsCheck_acc env a "monitoring")
      (AccSt_comp (nsCheck_acc env a "logging") (nsCheck_acc env a "default")))
  simpa [AccSec, secNs] using secStep hF (.info hdrNs) rfl rfl rfl s

/-- The `HTTP probe` line followed by the optional `HTTPS probe` line. -/
lemma probePair_acc {s₀ s₁ : St} (h : StRel s₀ s₁ 0 0) (c : Bool)
    (pr pr2 : ProbeRes) (lb host : String) :
    ∃ t, (if c then SRes.ok (probeEmit pr2 lb "HTTPS" host (probeEmit pr lb "HTTP" host s₁))
          else SRes.ok (probeEmit pr lb "HTTP" host s₁)) = SRes.ok t ∧ StRel s₀ t 0 0 := by
  have k1 := probeEmit_acc pr lb "HTTP" host s₁
  cases c
  · exact ⟨_, rfl, by simpa using StRel_comp h k1⟩
  · have k2 := probeEmit_acc pr2 lb "HTTPS" host (probeEmit pr lb "HTTP" host s₁)
    exact ⟨_, rfl, by simpa using StRel_comp (StRel_comp h k1) k2⟩

/-- The Argo CD section body either finishes with faithful counters or
raises with the state it entered with. -/
lemma argoBody_acc (env : Env) (a : Args) (s : St) :
    (∃ t, argoBody env a s = .ok t ∧ StRel s t 0 0) ∨
    (∃ e t, argoBody env a s = .err e t ∧ StRel s t 0 0) := by
  unfold argoBody
  cases hrc : (sh (env.shO (withKc a.kubeconfig "kubectl -n argocd get deploy argocd-server -o json")) 20).rc == 0
  · left
    have h0 := failC_acc ("argocd-server deployment not found ("
      ++ ((sh (env.shO (withKc a.kubeconfig "kubectl -n argocd get deploy argocd-server -o json")) 20).err ++ ")")) s
    obtain ⟨t, ht, hrel⟩ := probePair_acc h0 a.https
      (http_probe (env.probeO "http" a.argocd)) (http_probe (env.probeO "https" a.argocd)) "argocd" a.argocd
    exact ⟨t, by simpa [hrc] using ht, hrel⟩
  · cases hav : availFrom env.parse
      (sh (env.shO (withKc a.kubeconfig "kubectl -n argocd get deploy argocd-server -o json")) 20).out with
    | error e =>
      right
      exact ⟨e, s, by simp [hrc, hav, Except.map], StRel_refl s⟩
    | ok av =>
      left
      have h0 : StRel s (if av = true then okC "argocd-server deployment Available" s
          else failC "argocd-server deployment not Available" s) 0 0 :=
        AccSt_ite (okC_acc _) (failC_acc _) s
      obtain ⟨t, ht, hrel⟩ := probePair_acc h0 a.https
        (http_probe (env.probeO "http" a.argocd)) (http_probe (env.probeO "https" a.argocd)) "argocd" a.argocd
      exact ⟨t, by simpa [hrc, hav, Except.map] using ht, hrel⟩

/-- Section 5 (Argo CD). -/
lemma secArgo_acc (env : Env) (a : Args) :
    AccSec (secArgo env a) (.info hdrArgo) 0 0 := by
  intro s
  have hh := StRel_header (.info hdrArgo) rfl rfl rfl s
  have hmem : Line.info hdrArgo ∈ (emit (.info hdrArgo) (emit (.raw "") s)).lines := by
    simp [emit]
  rcases argoBody_acc env a (emit (.info hdrArgo) (emit (.raw "") s)) with ⟨t, ht, hrel⟩ | ⟨e, t, ht, hrel⟩
  · refine ⟨t, by simp [secArgo, ht], hrel.1.subset hmem, ?_⟩
    simpa using StRel_comp hh hrel
  · have hfin := failC_acc ("ArgoCD check error: " ++ e) t
    refine ⟨failC ("ArgoCD check error: " ++ e) t, by simp [secArgo, ht], ?_, ?_⟩
    · exact hfin.1.subset (hrel.1.subset hmem)
    · simpa using StRel_comp hh (StRel_comp hrel hfin)

/-- The operator + probes half of the monitoring section. -/
lemma monTail_acc (env : Env) (a : Args) (s : St) :
    (∃ t, monTail env a s = .ok t ∧ StRel s t 0 0) ∨
    (∃ e, monTail env a s = .err e s) := by
  unfold monTail
  cases hrc2 : (sh (env.shO (withKc a.kubeconfig "kubectl -n monitoring get deploy kube-prometheus-stack-operator -o json")) 20).rc == 0
  · left
    obtain ⟨t, ht, hrel⟩ := probePair_acc (warnC_acc "Prometheus Operator deployment not found" s) a.https
      (http_probe (env.probeO "http" a.grafana)) (http_probe (env.probeO "https" a.grafana)) "grafana" a.grafana
    exact ⟨t, by simpa [hrc2] using ht, hrel⟩
  · cases hav2 : availFrom env.parse
      (sh (env.shO (withKc a.kubeconfig "kubectl -n monitoring get deploy kube-prometheus-stack-operator -o json")) 20).out with
    | error e =>
      right
      exact ⟨e, by simp [hrc2, hav2, Except.map]⟩
    | ok av =>
      left
      have h0 : StRel s (if av = true then okC "Prometheus Operator Available" s
          else warnC "Prometheus Operator not Available yet" s) 0 0 :=
        AccSt_ite (okC_acc _) (warnC_acc _) s
      obtain ⟨t, ht, hrel⟩ := probePair_acc h0 a.https
        (http_probe (env.probeO "http" a.grafana)) (http_probe (env.probeO "https" a.grafana)) "grafana" a.grafana
      exact ⟨t, by simpa [hrc2, hav2, Except.map] using ht, hrel⟩

/-- The monitoring section body either finishes with faithful counters
or raises (possibly after the Grafana line was printed). -/
lemma monBody_acc (env : Env) (a : Args) (s : St) :
    (∃ t, monBody env a s = .ok t ∧ StRel s t 0 0) ∨
    (∃ e t, monBody env a s = .err e t ∧ StRel s t 0 0) := by
  unfold monBody
  cases hrc : (sh (env.shO (withKc a.kubeconfig "kubectl -n monitoring get deploy kube-prometheus-stack-grafana -o json")) 20).rc == 0
  · have h0 := failC_acc ("Grafana deployment not found ("
      ++ ((sh (env.shO (withKc a.kubeconfig "kubectl -n monitoring get deploy kube-prometheus-stack-grafana -o json")) 20).err ++ ")")) s
    rcases monTail_acc env a (failC ("Grafana deployment not found ("
        ++ ((sh (env.shO (withKc a.kubeconfig "kubectl -n monitoring get deploy kube-prometheus-stack-grafana -o json")) 20).err ++ ")")) s)
      with ⟨t, ht, hrel⟩ | ⟨e, he⟩
    · left
      exact ⟨t, by simpa [hrc] using ht, by simpa using StRel_comp h0 hrel⟩
    · right
      exact ⟨e, _, by simpa [hrc] using he, h0⟩
  · cases hav : availFrom env.parse
      (sh (env.shO (withKc a.kubeconfig "kubectl -n monitoring get deploy kube-prometheus-stack-grafana -o json")) 20).out with
    | error e =>
      right
      exact ⟨e, s, by simp [hrc, hav, Except.map], StRel_refl s⟩
    | ok av =>
      have h0 : StRel s (if av = true then okC "Grafana deployment Available" s
          else failC "Grafana deployment not Available" s) 0 0 :=
        AccSt_ite (okC_acc _) (failC_acc _) s
      rcases monTail_acc env a (if av = true then okC "Grafana deployment Available" s
          else failC "Grafana deployment not Available" s)
        with ⟨t, ht, hrel⟩ | ⟨e, he⟩
      · left
        exact ⟨t, by simpa [hrc, hav, Except.map] using ht, by simpa using StRel_comp h0 hrel⟩
      · right
        exact ⟨e, _, by simpa [hrc, hav, Except.map] using he, h0⟩

/-- Section 6 (Grafana / Prometheus). -/
lemma secMon_acc (env : Env) (a : Args) :
    AccSec (secMon env a) (.info hdrMon) 0 0 := by
  intro s
  have hh := StRel_header (.info hdrMon) rfl rfl rfl s
  have hmem : Line.info hdrMon ∈ (emit (.info hdrMon) (emit (.raw "") s)).lines := by
    simp [emit]
  rcases monBody_acc env a (emit (.info hdrMon) (emit (.raw "") s)) with ⟨t, ht, hrel⟩ | ⟨e, t, ht, hrel⟩
  · refine ⟨t, by simp [secMon, ht], hrel.1.subset hmem, ?_⟩
    simpa using StRel_comp hh hrel
  · have hfin := failC_acc ("Monitoring check error: " ++ e) t
    refine ⟨failC ("Monitoring check error: " ++ e) t, by simp [secMon, ht], ?_, ?_⟩
    · exact hfin.1.subset (hrel.1.subset hmem)
    · simpa using StRel_comp hh (StRel_comp hrel hfin)

/-- Section 7 (Loki / Promtail). -/
lemma secLoki_acc (env : Env) (a : Args) :
    AccSec (secLoki env a) (.info hdrLoki) 0 0 := by
  intro s
  cases hf : lokiFacts env a with
  | error e =>
    simpa [secLoki, hf] using secStep (warnC_acc ("Loki/Promtail check error: " ++ e))
      (.info hdrLoki) rfl rfl rfl s
  | ok p =>
    obtain ⟨hl, hp⟩ := p
    have h1 : AccSt (fun t => if hl = true then okC "Loki pod Running/Ready" t
        else warnC "Loki not Ready" t) 0 0 := AccSt_ite (okC_acc _) (warnC_acc _)
    have h2 : AccSt (fun t => if hp = true then okC "Promtail pod Running/Ready" t
        else warnC "Promtail not Ready" t) 0 0 := AccSt_ite (okC_acc _) (warnC_acc _)
    have hF := AccSt_comp h1 h2
    simpa [AccSec, secLoki, hf] using secStep hF (.info hdrLoki) rfl rfl rfl s

/-- Section 8 (demo app whoami). -/
lemma secWhoami_acc (env : Env) (a : Args) :
    AccSec (secWhoami env a) (.info hdrWhoami) 0 0 := by
  intro s
  have h1 : AccSt (fun t =>
      if (sh (env.shO (withKc a.kubeconfig "kubectl -n default get svc whoami")) 20).rc == 0
      then okC "whoami Service exists" t else warnC "whoami Service missing" t) 0 0 :=
    AccSt_ite (okC_acc _) (warnC_acc _)
  have h2 : AccSt (fun t =>
      if ((http_probe (env.probeO "http" a.whoami)).alive
            && strContains (http_probe (env.probeO "http" a.whoami)).body "Hostname:")
          || strContains (http_probe (env.probeO "http" a.whoami)).body "Request served by"
          || ((http_probe (env.probeO "http" a.whoami)).status == 200
            || (http_probe (env.probeO "http" a.whoami)).status == 301
            || (http_probe (env.probeO "http" a.whoami)).status == 302)
      then okC ("HTTP probe whoami (" ++ (a.whoami ++ (") -> "
        ++ (toString (http_probe (env.probeO "http" a.whoami)).status
          ++ (" " ++ (http_probe (env.probeO "http" a.whoami)).reason))))) t
      else failC ("HTTP probe whoami failed: "
        ++ (if (http_probe (env.probeO "http" a.whoami)).reason == "" then "non-200 response"
          else (http_probe (env.probeO "http" a.whoami)).reason)) t) 0 0 :=
    AccSt_ite (okC_acc _) (failC_acc _)
  have h12 := AccSt_comp h1 h2
  cases hh : a.https
  · simpa [AccSec, secWhoami, hh] using secStep h12 (.info hdrWhoami) rfl rfl rfl s
  · have h3 := probeEmit_acc (http_probe (env.probeO "https" a.whoami)) "whoami" "HTTPS" a.whoami
    have hF := AccSt_comp h12 h3
    simpa [AccSec, secWhoami, hh] using secStep hF (.info hdrWhoami) rfl rfl rfl s

/-- Section 9 (DNS hints): exactly the `dnsOkU` / `dnsWarnU` hint lines
escape the counters. -/
lemma secDns_acc (env : Env) (a : Args) :
    AccSec (secDns env a) (.info hdrDns) (dnsOkU env a) (dnsWarnU env a) := by
  intro s
  have hF := AccSt_comp (dnsCheck_acc env a a.argocd)
    (AccSt_comp (dnsCheck_acc env a a.grafana) (dnsCheck_acc env a a.whoami))
  simpa [AccSec, secDns, dnsOkU, dnsWarnU] using secStep hF (.info hdrDns) rfl rfl rfl s

/-- Section 10 (summary): always returns, prints the banner and the
counters line for the current tallies, touches neither a counter nor a
counted line. -/
lemma secSummary_acc (env : Env) (a : Args) (s : St) :
    ∃ t, secSummary env a s = .ok t ∧ s.lines <+: t.lines ∧
      Line.raw "STACK HEALTH SUMMARY" ∈ t.lines ∧
      Line.raw (summaryLine s.passed s.warned s.failed) ∈ t.lines ∧
      t.passed = s.passed ∧ t.warned = s.warned ∧ t.failed = s.failed ∧
      countOk t.lines = countOk s.lines ∧ countW t.lines = countW s.lines ∧
      countF t.lines = countF s.lines := by
  unfold secSummary
  refine ⟨_, rfl, ?_, ?_, ?_, ?_, ?_, ?_, ?_, ?_, ?_⟩ <;>
    simp [emit] <;>
    split_ifs <;>
    simp [emit, List.append_assoc]

/-- Master fact about a whole run whose kubeconfig read (if it happens)
does not raise: it finishes, every section
header and the summary banner are printed, the counters line shows the
final tallies, and each counter accounts exactly for the lines of its
kind (up to the known uncounted kubeconfig/DNS informational lines). -/
lemma mainAcc (env : Env) (a : Args)
    (hok : env.isfile = true → ∃ cfg, env.readKubeconfig = Except.ok cfg) :
    ∃ t, mainRun env a = .ok t ∧
      Line.info hdrKube ∈ t.lines ∧ Line.info hdrNode ∈ t.lines ∧ Line.info hdrCore ∈ t.lines ∧
      Line.info hdrNs ∈ t.lines ∧ Line.info hdrArgo ∈ t.lines ∧ Line.info hdrMon ∈ t.lines ∧
      Line.info hdrLoki ∈ t.lines ∧ Line.info hdrWhoami ∈ t.lines ∧ Line.info hdrDns ∈ t.lines ∧
      Line.raw "STACK HEALTH SUMMARY" ∈ t.lines ∧
      Line.raw (summaryLine t.passed t.warned t.failed) ∈ t.lines ∧
      t.failed = countF t.lines ∧
      t.warned + dnsWarnU env a = countW t.lines ∧
      t.passed + (kubeOkU env + dnsOkU env a) = countOk t.lines := by
  obtain ⟨t1, h1, m1, q1, b11, b12, b13, e11, e12, e13⟩ := secKubeApi_acc env a hok initSt
  obtain ⟨t2, h2, m2, q2, b21, b22, b23, e21, e22, e23⟩ := secNode_acc env a t1
  obtain ⟨t3, h3, m3, q3, b31, b32, b33, e31, e32, e33⟩ := secCore_acc env a t2
  obtain ⟨t4, h4, m4, q4, b41, b42, b43, e41, e42, e43⟩ := secNs_acc env a t3
  obtain ⟨t5, h5, m5, q5, b51, b52, b53, e51, e52, e53⟩ := secArgo_acc env a t4
  obtain ⟨t6, h6, m6, q6, b61, b62, b63, e61, e62, e63⟩ := secMon_acc env a t5
  obtain ⟨t7, h7, m7, q7, b71, b72, b73, e71, e72, e73⟩ := secLoki_acc env a t6
  obtain ⟨t8, h8, m8, q8, b81, b82, b83, e81, e82, e83⟩ := secWhoami_acc env a t7
  obtain ⟨t9, h9, m9, q9, b91, b92, b93, e91, e92, e93⟩ := secDns_acc env a t8
  obtain ⟨t10, h10, q10, mS, mL, f1, f2, f3, c1, c2, c3⟩ := secSummary_acc env a t9
  have P2 : t1.lines <+: t10.lines :=
    q2.trans (q3.trans (q4.trans (q5.trans (q6.trans (q7.trans (q8.trans (q9.trans q10)))))))
  have P3 : t2.lines <+: t10.lines :=
    q3.trans (q4.trans (q5.trans (q6.trans (q7.trans (q8.trans (q9.trans q10))))))
  have P4 : t3.lines <+: t10.lines :=
    q4.trans (q5.trans (q6.trans (q7.trans (q8.trans (q9.trans q10)))))
  have P5 : t4.lines <+: t10.lines :=
    q5.trans (q6.trans (q7.trans (q8.trans (q9.trans q10))))
  have P6 : t5.lines <+: t10.lines := q6.trans (q7.trans (q8.trans (q9.trans q10)))
  have P7 : t6.lines <+: t10.lines := q7.trans (q8.trans (q9.trans q10))
  have P8 : t7.lines <+: t10.lines := q8.trans (q9.trans q10)
  have P9 : t8.lines <+: t10.lines := q9.trans q10
  have P10 : t9.lines <+: t10.lines := q10
  have hrun : mainRun env a = .ok t10 := by
    simp [mainRun, runSecs, sections, List.foldl, SRes.seq, h1, h2, h3, h4, h5, h6, h7, h8, h9, h10]
  have hz1 : countOk initSt.lines = 0 := rfl
  have hz2 : countW initSt.lines = 0 := rfl
  have hz3 : countF initSt.lines = 0 := rfl
  have hz4 : initSt.passed = 0 := rfl
  have hz5 : initSt.warned = 0 := rfl
  have hz6 : initSt.failed = 0 := rfl
  refine ⟨t10, hrun, P2.subset m1, P3.subset m2, P4.subset m3, P5.subset m4, P6.subset m5,
    P7.subset m6, P8.subset m7, P9.subset m8, P10.subset m9, mS, ?_, ?_, ?_, ?_⟩
  · rw [f1, f2, f3]
    exact mL
  · omega
  · omega
  · omega

/-- Whenever a section of the run finishes normally, it has not
decreased any counter (section 1 may instead die on the kubeconfig
read, in which case it finishes no state at all). -/
lemma sections_mono (env : Env) (a : Args) :
    ∀ f ∈ sections env a, ∀ s t : St, f s = .ok t →
      s.passed ≤ t.passed ∧ s.warned ≤ t.warned ∧ s.failed ≤ t.failed := by
  have ofAcc : ∀ {f : St → SRes} {hd : Line} {u w : Nat}, AccSec f hd u w →
      ∀ s t : St, f s = .ok t →
        s.passed ≤ t.passed ∧ s.warned ≤ t.warned ∧ s.failed ≤ t.failed := by
    intro f hd u w hacc s t hst
    obtain ⟨t', ht', _, hr⟩ := hacc s
    rw [ht'] at hst
    injection hst with hst
    subst hst
    exact ⟨hr.2.1, hr.2.2.1, hr.2.2.2.1⟩
  intro f hf s t hst
  simp only [sections, List.mem_cons, List.not_mem_nil, or_false] at hf
  rcases hf with h|h|h|h|h|h|h|h|h|h <;> subst h
  · -- section 1: go through the kubeconfig disjunction
    rcases kubeconfigCheck_disj env a (emit (.info hdrKube) (emit (.raw "") s)) with
      ⟨t', ht', hrel⟩ | ⟨e, _, _, herr⟩
    · rw [show secKubeApi env a s = .ok (readyzCheck env a t') by simp [secKubeApi, ht']] at hst
      injection hst with hst
      subst hst
      have hh := StRel_header (.info hdrKube) rfl rfl rfl s
      have hr := readyzCheck_acc env a t'
      have hall := StRel_comp hh (StRel_comp hrel hr)
      exact ⟨hall.2.1, hall.2.2.1, hall.2.2.2.1⟩
    · rw [show secKubeApi env a s
          = .err e (emit (.ok ("kubeconfig found at " ++ a.kubeconfig))
            (emit (.info hdrKube) (emit (.raw "") s))) by simp [secKubeApi, herr]] at hst
      exact absurd hst (by simp)
  · exact ofAcc (secNode_acc env a) s t hst
  · exact ofAcc (secCore_acc env a) s t hst
  · exact ofAcc (secNs_acc env a) s t hst
  · exact ofAcc (secArgo_acc env a) s t hst
  · exact ofAcc (secMon_acc env a) s t hst
  · exact ofAcc (secLoki_acc env a) s t hst
  · exact ofAcc (secWhoami_acc env a) s t hst
  · exact ofAcc (secDns_acc env a) s t hst
  · obtain ⟨t', ht', _, _, _, f1, f2, f3, _⟩ := secSummary_acc env a s
    rw [ht'] at hst
    injection hst with hst
    subst hst
    exact ⟨by omega, by omega, by omega⟩

/-- Extending a prefix of the run by one section never decreases a
counter. -/
lemma runPrefix_step (env : Env) (a : Args) (k : Nat) {s t : St}
    (hs : runPrefix env a k = .ok s) (ht : runPrefix env a (k + 1) = .ok t) :
    s.passed ≤ t.passed ∧ s.warned ≤ t.warned ∧ s.failed ≤ t.failed := by
  by_cases hk : k < (sections env a).length
  · have hsp : (sections env a).take (k + 1)
        = (sections env a).take k ++ [(sections env a).get ⟨k, hk⟩] := by
      rw [List.take_succ]
      simp [List.getElem?_eq_getElem hk]
    unfold runPrefix runSecs at hs ht
    rw [hsp, List.foldl_append] at ht
    rw [hs] at ht
    have hseq : List.foldl SRes.seq (SRes.ok s) [(sections env a).get ⟨k, hk⟩]
        = (sections env a).get ⟨k, hk⟩ s := by
      simp [List.foldl, SRes.seq]
    rw [hseq] at ht
    exact sections_mono env a _ (List.mem_iff_get.mpr ⟨⟨k, hk⟩, rfl⟩) s t ht
  · have hsp : (sections env a).take (k + 1) = (sections env a).take k := by
      rw [List.take_of_length_le (by omega), List.take_of_length_le (by omega)]
    unfold runPrefix at hs ht
    rw [hsp, hs] at ht
    cases ht
    exact ⟨le_refl _, le_refl _, le_refl _⟩

/-- A list is a Boolean prefix of itself extended to the right. -/
lemma isPrefixOf_self_append (p b : List Char) : p.isPrefixOf (p ++ b) = true := by
  induction p with
  | nil => cases b <;> rfl
  | cons c cs ih => simp [List.isPrefixOf, ih]

/-- The infix test finds the pattern at the front. -/
lemma infixOfB_self_append (p b : List Char) : infixOfB p (p ++ b) = true := by
  cases p with
  | nil =>
    cases b with
    | nil => rfl
    | cons c cs => simp [infixOfB, List.isPrefixOf]
  | cons q qs => simp [infixOfB, isPrefixOf_self_append]

/-- The infix test finds the pattern after any prelude. -/
lemma infixOfB_append_mid (p a b : List Char) : infixOfB p (a ++ (p ++ b)) = true := by
  induction a with
  | nil => simpa using infixOfB_self_append p b
  | cons c cs ih =>
    show (p.isPrefixOf (c :: (cs ++ (p ++ b))) || infixOfB p (cs ++ (p ++ b))) = true
    rw [ih, Bool.or_true]

/-- The infix test finds the pattern at the very end. -/
lemma infixOfB_append_right (p a : List Char) : infixOfB p (a ++ p) = true := by
  have h := infixOfB_append_mid p a []
  simpa using h

/-- The empty pattern is an infix of everything. -/
lemma infixOfB_nil (l : List Char) : infixOfB [] l = true := by
  cases l with
  | nil => rfl
  | cons c cs => simp [infixOfB, List.isPrefixOf]

/-- The middle part `y` occurs in `x ++ (y ++ z)`. -/
lemma strContains_append_mid (x y z : String) : strContains (x ++ (y ++ z)) y = true := by
  simp only [strContains, String.data_append]
  exact infixOfB_append_mid y.data x.data z.data

/-- The suffix `y` occurs in `x ++ y`. -/
lemma strContains_append_right (x y : String) : strContains (x ++ y) y = true := by
  simp only [strContains, String.data_append]
  exact infixOfB_append_right y.data x.data

/-- The empty string occurs in everything. -/
lemma strContains_nil (x : String) : strContains x "" = true := by
  simpa [strContains] using infixOfB_nil x.data

/-- A value that compares equal to the string `"Running"` under a
defaulted lookup is exactly that string stored in the map. -/
lemma jEqStr_getD_running {o : Option Json} (h : jEqStr (o.getD .null) "Running" = true) :
    o = some (.str "Running") := by
  cases o with
  | none => simp [jEqStr] at h
  | some v => cases v <;> simp_all [jEqStr]

/-- C1 (amended): `pod_ready` returns true only if the pod is a mapping
whose status is a mapping with phase exactly `"Running"`, whose
normalised container-status list is non-empty, and every entry of that
list is a mapping with a *truthy* `ready` value (not necessarily the
boolean `true`); a pod with phase `Running` but an empty (or falsy)
container-status list yields `false`; a pod without a status mapping
yields `false` (missing/malformed data never raises). -/
theorem pod_ready_characterization :
    (∀ pod : Json, pod_ready pod = true →
      ∃ skvs xs, statusObjOf pod = some skvs ∧
        lookupLast skvs "phase" = some (.str "Running") ∧
        csListOf skvs = some xs ∧ xs ≠ [] ∧ xs.all containerReadyTruthy = true) ∧
    (∀ (pod : Json) (skvs : List (String × Json)), statusObjOf pod = some skvs →
      csListOf skvs = some [] → pod_ready pod = false) ∧
    (∀ pod : Json, statusObjOf pod = none → pod_ready pod = false) := by
  refine ⟨?_, ?_, ?_⟩
  · intro pod h
    unfold pod_ready at h
    split at h
    case h_2 => exact absurd h (by simp)
    case h_1 kvs =>
      split at h
      case h_2 => exact absurd h (by simp)
      case h_1 skvs hst =>
        split at h
        case isFalse => exact absurd h (by simp)
        case isTrue hph =>
          dsimp only at h
          split at h
          case h_2 => exact absurd h (by simp)
          case h_1 xs hcs =>
            rw [Bool.and_eq_true] at h
            refine ⟨skvs, xs, ?_, jEqStr_getD_running hph, ?_, ?_, h.1⟩
            · simp [statusObjOf, hst]
            · simp [csListOf, hcs]
            · have h2 := h.2
              simp at h2
              intro hnil
              subst hnil
              simp at h2
  · intro pod skvs h1 h2
    unfold statusObjOf at h1
    split at h1
    case h_2 => exact absurd h1 (by simp)
    case h_1 kvs =>
      split at h1
      case h_2 => exact absurd h1 (by simp)
      case h_1 skvs' hst =>
        injection h1 with h1
        subst h1
        unfold csListOf at h2
        dsimp only at h2
        split at h2
        case h_2 => exact absurd h2 (by simp)
        case h_1 xs hcs =>
          injection h2 with h2
          subst h2
          unfold pod_ready
          dsimp only
          rw [hst]
          dsimp only
          split
          case isTrue h3 =>
            rw [hcs]
            simp
          case isFalse h3 => rfl
  · intro pod h
    cases pod with
    | obj kvs =>
      cases hst : (lookupLast kvs "status").getD (.obj []) with
      | obj skvs => exact absurd h (by simp [statusObjOf, hst])
      | null => simp [pod_ready, hst]
      | bool b => simp [pod_ready, hst]
      | num n => simp [pod_ready, hst]
      | str s2 => simp [pod_ready, hst]
      | arr xs => simp [pod_ready, hst]
    | null => rfl
    | bool b => rfl
    | num n => rfl
    | str s2 => rfl
    | arr xs => rfl

/-- C1 (counterexample to the claim as stated): a pod with phase
`Running` and a single container status whose `ready` field is the
truthy string `"yes"` makes `pod_ready` return `true`, although that
entry does not report `ready = true` — so "returns true only if every
container status entry reports ready = true" is false of the code. -/
theorem pod_ready_truthy_cex :
    pod_ready cexPod = true ∧
    statusObjOf cexPod = some cexSkvs ∧
    csListOf cexSkvs = some [cexEntry] ∧
    specReportsReadyTrue cexEntry = false := ⟨rfl, rfl, rfl, rfl⟩

/-- Witness for `pod_ready_characterization`: its second clause applied
to the concrete Running-with-empty-list pod. -/
theorem pod_ready_characterization_witness :
    pod_ready runningEmptyPod = false :=
  pod_ready_characterization.2.1 runningEmptyPod
    [("phase", .str "Running"), ("containerStatuses", .arr [])] rfl rfl

/-- C2: `http_probe` classifies every response with status in
`[100, 500)` as reachable, every response with status `>= 500` as
unreachable, and maps any exception to the unreachable result
`(false, 0, message, "")` — it never propagates the exception (the
model is a total function of the probe outcome). -/
theorem http_probe_classification :
    (∀ (st : Nat) (rs b : String), 100 ≤ st → st < 500 →
      (http_probe (.response st rs b)).alive = true) ∧
    (∀ (st : Nat) (rs b : String), 500 ≤ st →
      (http_probe (.response st rs b)).alive = false) ∧
    (∀ m : String, http_probe (.exn m) = ⟨false, 0, m, ""⟩) := by
  refine ⟨?_, ?_, ?_⟩
  · intro st rs b h1 h2
    simp [http_probe, h1, h2]
  · intro st rs b h1
    simp [http_probe]
    omega
  · intro m
    rfl

/-- Witness for `http_probe_classification` at 404, 503 and a
connection error. -/
theorem http_probe_classification_witness :
    (http_probe (.response 404 "Not Found" "")).alive = true ∧
    (http_probe (.response 503 "Service Unavailable" "")).alive = false ∧
    (http_probe (.exn "connection refused")).alive = false ∧
    (http_probe (.exn "connection refused")).status = 0 ∧
    (http_probe (.exn "connection refused")).reason = "connection refused" := by
  refine ⟨http_probe_classification.1 404 "Not Found" "" (by decide) (by decide),
    http_probe_classification.2.1 503 "Service Unavailable" "" (by decide), ?_, ?_, ?_⟩ <;>
    rw [http_probe_classification.2.2 "connection refused"]

/-- C6: on a timeout `sh` kills the child and returns the sentinel exit
code 124 (non-zero) with the timeout message in the stderr position;
on completion it returns the exit code with stdout and stderr stripped
of surrounding whitespace. -/
theorem sh_contract :
    (∀ t : Nat, sh .timedOut t
      = ⟨124, "", "timeout after " ++ toString t ++ "s", true⟩) ∧
    ((124 : Int) ≠ 0) ∧
    (∀ (rc : Int) (out err : String) (t : Nat),
      sh (.completed rc out err) t = ⟨rc, pyStrip out, pyStrip err, false⟩) := by
  exact ⟨fun t => rfl, by decide, fun rc out err t => rfl⟩

/-- C5 (code bug): with the whoami service present and the whoami HTTP
probe answering `503 Service Unavailable` whose body contains
`Request served by`, the probe result is a failure (`alive = false`)
but the section takes the pass branch (prints the probe `ok` line and
increments `passed`, leaving `failed` untouched), because
`alive and A or B or C` parses as `(alive and A) or B or C`. -/
theorem whoami_pass_despite_dead_probe :
    (http_probe (env5.probeO "http" defaultArgs.whoami)).alive = false ∧
    (secWhoami env5 defaultArgs initSt).st.passed = 2 ∧
    (secWhoami env5 defaultArgs initSt).st.failed = 0 ∧
    Line.ok "HTTP probe whoami (whoami.pizza) -> 503 Service Unavailable"
      ∈ (secWhoami env5 defaultArgs initSt).st.lines := by decide

/-- C7: for any existing kubeconfig that reads successfully and whose
detected server line contains `127.0.0.1:6443`, the kubeconfig
sub-check finishes normally, emits the loopback warning, increments the
warn counter by one and leaves the fail counter untouched. -/
theorem kubeconfig_loopback_warns (env : Env) (a : Args) (s : St) (cfg : String)
    (h1 : env.isfile = true)
    (h2 : env.readKubeconfig = Except.ok cfg)
    (h3 : strContains (serverLineOf cfg) "127.0.0.1:6443" = true) :
    ∃ t, kubeconfigCheck env a s = .ok t ∧ t.warned = s.warned + 1 ∧ t.failed = s.failed ∧
      Line.warn "kubeconfig still points to https://127.0.0.1:6443 (will still try using it)"
        ∈ t.lines := by
  refine ⟨incW (emit (.warn "kubeconfig still points to https://127.0.0.1:6443 (will still try using it)")
      (emit (.ok ("kubeconfig found at " ++ a.kubeconfig)) s)), ?_, ?_, ?_, ?_⟩
  · simp [kubeconfigCheck, h1, h2, h3]
  · simp [incW, emit]
  · simp [incW, emit]
  · simp [incW, emit]

/-- Witness for `kubeconfig_loopback_warns` on a concrete loopback
kubeconfig. -/
theorem kubeconfig_loopback_warns_witness :
    (kubeconfigCheck envB defaultArgs initSt).st.warned = initSt.warned + 1 ∧
    (kubeconfigCheck envB defaultArgs initSt).st.failed = initSt.failed ∧
    Line.warn "kubeconfig still points to https://127.0.0.1:6443 (will still try using it)"
      ∈ (kubeconfigCheck envB defaultArgs initSt).st.lines := by
  obtain ⟨t, ht, hw, hf, hm⟩ := kubeconfig_loopback_warns envB defaultArgs initSt
    "apiVersion: v1\nclusters:\n- cluster:\n    server: https://127.0.0.1:6443\n"
    rfl rfl (by decide)
  rw [ht]
  exact ⟨hw, hf, hm⟩

/-- C8: when the configured kubeconfig path names no file, the
kubeconfig check increments the fail counter by one and prints the
remediation `sed` hint, which contains the configured IP; the run still
executes every later section and prints the summary banner. -/
theorem kubeconfig_missing_fails (env : Env) (a : Args) (s : St)
    (h : env.isfile = false) :
    (∃ t, kubeconfigCheck env a s = .ok t ∧ t.failed = s.failed + 1 ∧
      Line.raw (sedHint a.ip a.kubeconfig) ∈ t.lines) ∧
    strContains (sedHint a.ip a.kubeconfig) a.ip = true ∧
    (∃ t, mainRun env a = .ok t ∧ Line.info hdrNode ∈ t.lines ∧ Line.info hdrCore ∈ t.lines ∧
      Line.info hdrNs ∈ t.lines ∧ Line.info hdrArgo ∈ t.lines ∧ Line.info hdrMon ∈ t.lines ∧
      Line.info hdrLoki ∈ t.lines ∧ Line.info hdrWhoami ∈ t.lines ∧ Line.info hdrDns ∈ t.lines ∧
      Line.raw "STACK HEALTH SUMMARY" ∈ t.lines) := by
  refine ⟨?_, ?_, ?_⟩
  · refine ⟨emit (.raw "") (emit (.raw (sedHint a.ip a.kubeconfig)) (emit (.raw "Please run:")
      (emit (.raw "") (failC ("kubeconfig missing: " ++ a.kubeconfig) s)))), ?_, ?_, ?_⟩
    · simp [kubeconfigCheck, h]
    · simp [emit, failC, incF]
    · simp [emit, failC, incF]
  · simpa [sedHint] using strContains_append_mid
      "  sudo sed -i \x27s#https://127\\.0\\.0\\.1:6443#https://" a.ip
      (":6443#\x27 " ++ a.kubeconfig)
  · obtain ⟨t, h0, _, m2, m3, m4, m5, m6, m7, m8, m9, mS, _⟩ :=
      mainAcc env a (fun hif => absurd hif (by simp [h]))
    exact ⟨t, h0, m2, m3, m4, m5, m6, m7, m8, m9, mS⟩

/-- Witness for `kubeconfig_missing_fails` in the all-failing world. -/
theorem kubeconfig_missing_fails_witness :
    (kubeconfigCheck envA defaultArgs initSt).st.failed = initSt.failed + 1 ∧
    Line.raw (sedHint defaultArgs.ip defaultArgs.kubeconfig)
      ∈ (kubeconfigCheck envA defaultArgs initSt).st.lines := by
  obtain ⟨⟨t, ht, hf, hm⟩, _, _⟩ := kubeconfig_missing_fails envA defaultArgs initSt rfl
  rw [ht]
  exact ⟨hf, hm⟩

/-- C9: on a non-zero exit code `kubectl_json` raises an error whose
message carries the captured (trimmed) stderr; on exit code zero it
decodes the captured stdout as JSON; such an error aborts only the
node-health section, which its handler turns into exactly one fail line
and one `failed` increment, while every section of the run still
executes and the summary is printed (provided the kubeconfig read,
which precedes every `kubectl_json` call site, did not raise). -/
theorem kubectl_json_contract :
    (∀ (env : Env) (args kc : String),
      ((sh (env.shO (withKc kc ("kubectl " ++ (args ++ " -o json")))) 40).rc ≠ 0 →
        ∃ m, kubectl_json env args kc = .error m ∧
          strContains m (sh (env.shO (withKc kc ("kubectl " ++ (args ++ " -o json")))) 40).err = true) ∧
      ((sh (env.shO (withKc kc ("kubectl " ++ (args ++ " -o json")))) 40).rc = 0 →
        kubectl_json env args kc
          = env.parse (sh (env.shO (withKc kc ("kubectl " ++ (args ++ " -o json")))) 40).out)) ∧
    (∀ (env : Env) (a : Args) (s : St) (e : String),
      kubectl_json env "get nodes" a.kubeconfig = .error e →
      ∃ t, secNode env a s = .ok t ∧ t.failed = s.failed + 1 ∧ t.passed = s.passed ∧
        t.warned = s.warned ∧
        Line.fail ("kubectl get nodes failed: " ++ e) ∈ t.lines) ∧
    (∀ (env : Env) (a : Args),
      (env.isfile = true → ∃ cfg, env.readKubeconfig = Except.ok cfg) →
      ∃ t, mainRun env a = .ok t ∧
      Line.info hdrNode ∈ t.lines ∧ Line.info hdrDns ∈ t.lines ∧
      Line.raw "STACK HEALTH SUMMARY" ∈ t.lines) := by
  refine ⟨?_, ?_, ?_⟩
  · intro env args kc
    constructor
    · intro hrc
      have hif : ((sh (env.shO (withKc kc ("kubectl " ++ (args ++ " -o json")))) 40).rc != 0) = true := by
        simpa [bne_iff_ne] using hrc
      cases herr : (sh (env.shO (withKc kc ("kubectl " ++ (args ++ " -o json")))) 40).err == ""
      · refine ⟨"kubectl " ++ (args ++ (" failed: "
          ++ (sh (env.shO (withKc kc ("kubectl " ++ (args ++ " -o json")))) 40).err)), ?_, ?_⟩
        · simp [kubectl_json, hif, herr]
        · simp only [strContains, String.data_append]
          rw [← List.append_assoc, ← List.append_assoc]
          exact infixOfB_append_right _ _
      · refine ⟨"kubectl " ++ (args ++ (" failed: "
          ++ (sh (env.shO (withKc kc ("kubectl " ++ (args ++ " -o json")))) 40).out)), ?_, ?_⟩
        · simp [kubectl_json, hif, herr]
        · have he : (sh (env.shO (withKc kc ("kubectl " ++ (args ++ " -o json")))) 40).err = "" :=
            eq_of_beq herr
          rw [he]
          exact strContains_nil _
    · intro hrc
      simp [kubectl_json, hrc]
  · intro env a s e he
    have hnf : nodeFacts env a = .error e := by
      unfold nodeFacts
      rw [he]
      rfl
    refine ⟨failC ("kubectl get nodes failed: " ++ e) (emit (.info hdrNode) (emit (.raw "") s)),
      ?_, ?_, ?_, ?_, ?_⟩ <;>
      simp [secNode, hnf, failC, incF, emit]
  · intro env a hok
    obtain ⟨t, h0, _, m2, _, _, _, _, _, _, m9, mS, _⟩ := mainAcc env a hok
    exact ⟨t, h0, m2, m9, mS⟩

/-- Witness for `kubectl_json_contract`: in the all-failing world the
node section ends with exactly one failure. -/
theorem kubectl_json_contract_witness :
    (secNode envA defaultArgs initSt).st.failed = 1 := by
  obtain ⟨t, ht, hf, _, _, _⟩ := kubectl_json_contract.2.1 envA defaultArgs initSt
    "kubectl get nodes failed: boom" rfl
  rw [ht]
  simp [SRes.st, hf, initSt]

/-- C3 (counterexample to the claim as stated): with an existing but
unreadable kubeconfig (the read raises `PermissionError`, e.g. the
root-owned default k3s.yaml read as non-root), the run dies right after
the `kubeconfig found` line — sections 2-10 never execute and no
summary is printed — so "no error terminates the overall run" is false
of the code. -/
theorem run_dies_on_unreadable_kubeconfig :
    mainRun envC defaultArgs = .err "PermissionError: Permission denied"
      ⟨0, 0, 0, [.raw "", .info hdrKube, .ok "kubeconfig found at /etc/rancher/k3s/k3s.yaml"]⟩ ∧
    Line.raw "STACK HEALTH SUMMARY" ∉ (mainRun envC defaultArgs).st.lines ∧
    Line.info hdrNode ∉ (mainRun envC defaultArgs).st.lines ∧
    Line.info hdrDns ∉ (mainRun envC defaultArgs).st.lines := by decide

/-- C3 (amended): provided reading an existing kubeconfig does not
raise — the `open()`/`read()` at lines 108-109 is the one operation of
`main` outside any `try/except` — no error terminates the run: every
one of the ten sections executes (all nine headers and the summary
banner are printed), every exception arising inside a section is
confined to that section, and the summary counters line with the final
three tallies is printed.  If that read does raise, the exception
escapes `main` immediately after the `kubeconfig found` line and
nothing else runs. -/
theorem main_isolates_sections :
    (∀ (env : Env) (a : Args),
      (env.isfile = true → ∃ cfg, env.readKubeconfig = Except.ok cfg) →
      ∃ t, mainRun env a = .ok t ∧
        Line.info hdrKube ∈ t.lines ∧ Line.info hdrNode ∈ t.lines ∧ Line.info hdrCore ∈ t.lines ∧
        Line.info hdrNs ∈ t.lines ∧ Line.info hdrArgo ∈ t.lines ∧ Line.info hdrMon ∈ t.lines ∧
        Line.info hdrLoki ∈ t.lines ∧ Line.info hdrWhoami ∈ t.lines ∧ Line.info hdrDns ∈ t.lines ∧
        Line.raw "STACK HEALTH SUMMARY" ∈ t.lines ∧
        Line.raw (summaryLine t.passed t.warned t.failed) ∈ t.lines) ∧
    (∀ (env : Env) (a : Args) (e : String), env.isfile = true →
      env.readKubeconfig = .error e →
      mainRun env a = .err e (emit (.ok ("kubeconfig found at " ++ a.kubeconfig))
        (emit (.info hdrKube) (emit (.raw "") initSt)))) := by
  constructor
  · intro env a hok
    obtain ⟨t, h0, m1, m2, m3, m4, m5, m6, m7, m8, m9, mS, mL, _⟩ := mainAcc env a hok
    exact ⟨t, h0, m1, m2, m3, m4, m5, m6, m7, m8, m9, mS, mL⟩
  · exact main_dies

/-- Witness for `main_isolates_sections` on a readable loopback
kubeconfig world. -/
theorem main_isolates_sections_witness :
    Line.raw "STACK HEALTH SUMMARY" ∈ (mainRun envB defaultArgs).st.lines := by
  obtain ⟨t, ht, _, _, _, _, _, _, _, _, _, mS, _⟩ := main_isolates_sections.1 envB defaultArgs
    (fun _ => ⟨"apiVersion: v1\nclusters:\n- cluster:\n    server: https://127.0.0.1:6443\n", rfl⟩)
  rw [ht]
  exact mS

/-- C4 (counterexample to the claim as stated): in the all-failing
world the final warn counter is strictly smaller than the number of
warn lines printed — the three DNS-hint warn lines are emitted without
incrementing the warn counter, so "emitting a warn line is accompanied
by an increment of the warn counter" is false of the code. -/
theorem warn_lines_exceed_warn_counter :
    (mainRun envA defaultArgs).st.warned
      < countW (mainRun envA defaultArgs).st.lines := by decide

/-- C4 (amended): over any whole run, the fail counter equals the
number of fail lines; the warn counter equals the number of warn lines
minus the DNS-hint warn lines (which print without incrementing); the
pass counter equals the number of pass lines minus the informational
kubeconfig lines and the DNS-hint ok lines (which print without
incrementing).  Every other pass/warn/fail line is accompanied by
exactly one increment of its counter. -/
theorem counters_track_lines :
    (∀ (env : Env) (a : Args) (t : St), mainRun env a = .ok t →
      t.failed = countF t.lines ∧
      t.warned + dnsWarnU env a = countW t.lines ∧
      t.passed + (kubeOkU env + dnsOkU env a) = countOk t.lines) ∧
    (∀ (env : Env) (a : Args) (e : String) (t : St), mainRun env a = .err e t →
      t.failed = countF t.lines ∧ t.warned = countW t.lines ∧
      t.passed + 1 = countOk t.lines) := by
  constructor
  · intro env a t h
    by_cases hok : env.isfile = true → ∃ cfg, env.readKubeconfig = Except.ok cfg
    · obtain ⟨t', h0, _, _, _, _, _, _, _, _, _, _, _, c1, c2, c3⟩ := mainAcc env a hok
      rw [h0] at h
      injection h with h
      subst h
      exact ⟨c1, c2, c3⟩
    · push_neg at hok
      cases hrk : env.readKubeconfig with
      | ok cfg => exact absurd hrk (hok.2 cfg)
      | error e =>
        rw [main_dies env a e hok.1 hrk] at h
        exact absurd h (by simp)
  · intro env a e t h
    by_cases hok : env.isfile = true → ∃ cfg, env.readKubeconfig = Except.ok cfg
    · obtain ⟨t', h0, _⟩ := mainAcc env a hok
      rw [h0] at h
      exact absurd h (by simp)
    · push_neg at hok
      cases hrk : env.readKubeconfig with
      | ok cfg => exact absurd hrk (hok.2 cfg)
      | error e2 =>
        rw [main_dies env a e2 hok.1 hrk] at h
        injection h with h1 h2
        subst h2
        simp [emit, initSt]

/-- Witness for `counters_track_lines` on the completed all-failing
run. -/
theorem counters_track_lines_witness :
    (mainRun envA defaultArgs).st.failed
      = countF (mainRun envA defaultArgs).st.lines :=
  (counters_track_lines.1 envA defaultArgs ((mainRun envA defaultArgs).st) rfl).1

/-- C10: the three counters start at zero, each increment helper adds
exactly one to its own counter and leaves the other two unchanged, and
across every prefix of the run the counters never decrease (so the
summary reads non-negative, monotonically accumulated tallies). -/
theorem counters_monotone_from_zero :
    (initSt.passed = 0 ∧ initSt.warned = 0 ∧ initSt.failed = 0) ∧
    (∀ s : St, (incP s).passed = s.passed + 1 ∧ (incP s).warned = s.warned ∧
      (incP s).failed = s.failed) ∧
    (∀ s : St, (incW s).warned = s.warned + 1 ∧ (incW s).passed = s.passed ∧
      (incW s).failed = s.failed) ∧
    (∀ s : St, (incF s).failed = s.failed + 1 ∧ (incF s).passed = s.passed ∧
      (incF s).warned = s.warned) ∧
    (∀ (env : Env) (a : Args) (k : Nat) (s t : St),
      runPrefix env a k = .ok s → runPrefix env a (k + 1) = .ok t →
      s.passed ≤ t.passed ∧ s.warned ≤ t.warned ∧ s.failed ≤ t.failed) := by
  refine ⟨⟨rfl, rfl, rfl⟩, fun s => ⟨rfl, rfl, rfl⟩, fun s => ⟨rfl, rfl, rfl⟩,
    fun s => ⟨rfl, rfl, rfl⟩, ?_⟩
  intro env a k s t hs ht
  exact runPrefix_step env a k hs ht

/-- Witness for `counters_monotone_from_zero` across the first section
in the all-failing world. -/
theorem counters_monotone_from_zero_witness :
    (runPrefix envA defaultArgs 0).st.failed ≤ (runPrefix envA defaultArgs 1).st.failed := by
  have h := counters_monotone_from_zero.2.2.2.2 envA defaultArgs 0
    ((runPrefix envA defaultArgs 0).st) ((runPrefix envA defaultArgs 1).st) rfl rfl
  exact h.2.2
